import Mathlib

/-!
Verification development for src/BatchRender.py, a Blender add-on that renders
a single object in isolation or batch-renders a user-curated list of objects.

Shallow embedding conventions:
* `bpy.data.objects` is the association list `Objects` from object name to its
  `hide_viewport` / `hide_render` flags (Blender object names are unique).
* Host-owned functionality (`bpy.path.abspath`, `bpy.path.clean_name`,
  `os.path.exists`, `os.makedirs`, `os.access`, `shutil.disk_usage`, and
  whether `bpy.ops.render.render` raises) is an environment `Env` of
  uninterpreted but executable functions.
* The asynchronous render job is observed, as in the source, only through the
  polled boolean `is_rendering` (the source's `bpy.app.is_job_running('RENDER')`
  wrapped in try/except, whose except branch yields `False`); each timer tick
  supplies that boolean in `TickIn`.
* `time.time()` values are supplied as rationals (`now` arguments / `TickIn`),
  and the float `batch_render_progress` is modelled as a rational.
* Calls to `bpy.ops.render.render` that do not raise append a `RenderEvent` to
  `renderLog`; `self.report` calls append to `reports`.  `print` calls are not
  modelled.
* Only timer events are modelled for `modal` (any other event type returns
  `PASS_THROUGH` without touching state in the source).
-/

namespace BatchRender

/-- Visibility flags of one scene object (`obj.hide_viewport`, `obj.hide_render`). -/
structure ObjVis where
  hide_viewport : Bool
  hide_render : Bool
deriving DecidableEq, Repr

/-- The scene's objects (`bpy.data.objects`): name to visibility flags. -/
abbrev Objects := List (String × ObjVis)

/-- One entry of `scene.batch_render_objects` (`RENDER_PG_batch_object`): the
pointer may be gone (`None`) or name an object that no longer exists. -/
structure BatchItem where
  obj : Option String
deriving DecidableEq, Repr

/-- The scene state touched by the add-on.  `render_filepath` is
`scene.render.filepath`, `image_file_format` is
`scene.render.image_settings.file_format`, and `batch_render_prefixStr` is the
scene property `batch_render_prefix` (renamed only in the Lean source). -/
structure Scene where
  objects : Objects
  render_filepath : String
  image_file_format : String
  batch_render_objects : List BatchItem
  batch_render_index : Int
  batch_render_path : String
  batch_render_prefixStr : String
  batch_render_progress : ℚ
  batch_render_current_object : String
  batch_render_status : String
  batch_render_eta : String
  batch_render_cancelled : Bool
deriving DecidableEq, Repr

/-- The instance attributes of `RENDER_OT_batch_render`, at their class-level
defaults in `mkInitState`. -/
structure OpState where
  current_index : Nat
  visibility_states : List (String × ObjVis)
  original_filepath : String
  start_time : ℚ
  total_objects : Nat
  is_running : Bool
deriving DecidableEq, Repr

/-- One (non-raising) call of `bpy.ops.render.render('INVOKE_DEFAULT',
write_still=True)`: the list index rendered, the rendered object's name, the
`scene.render.filepath` in effect, and the objects' visibility at invocation. -/
structure RenderEvent where
  idx : Nat
  objName : String
  filepath : String
  objects : Objects
deriving DecidableEq, Repr

/-- One `self.report({level}, message)` call. -/
structure Report where
  level : String
  message : String
deriving DecidableEq, Repr

/-- Combined state: the scene, the batch operator's attributes, the log of
render invocations, the reports issued, and whether the modal timer is set. -/
structure SysState where
  scene : Scene
  op : OpState
  renderLog : List RenderEvent
  reports : List Report
  timerActive : Bool
deriving DecidableEq, Repr

/-- Operator return values used by the add-on. -/
inductive OpResult where
  | FINISHED
  | CANCELLED
  | RUNNING_MODAL
  | PASS_THROUGH
deriving DecidableEq, Repr

/-- Outcome of `os.makedirs`: success, `PermissionError`, or another exception
carrying its message string. -/
inductive MakedirsOutcome where
  | ok
  | permissionError
  | otherError (msg : String)
deriving DecidableEq, Repr

/-- Host environment: `bpy.path.abspath`, `bpy.path.clean_name`,
`os.path.exists`, `os.makedirs`, `os.access(-, os.W_OK)`,
`shutil.disk_usage(-).free` (`none` models the except branch), and whether the
`bpy.ops.render.render` call for a given list index raises. -/
structure Env where
  abspath : String → String
  clean_name : String → String
  path_exists : String → Bool
  makedirs : String → MakedirsOutcome
  access_w_ok : String → Bool
  disk_free : String → Option Nat
  render_raises : Nat → Bool

/-- Input of one timer tick: whether `render.cancel_batch` ran since the last
tick, the polled `is_rendering` boolean, and the current `time.time()`. -/
structure TickIn where
  cancelPressed : Bool
  is_rendering : Bool
  now : ℚ
deriving DecidableEq, Repr

/-- Membership test `name in bpy.data.objects`. -/
def objExists (objs : Objects) (name : String) : Bool :=
  objs.any (fun o => o.1 = name)

/-- Visibility flags of the named object, if present. -/
def lookupVis (objs : Objects) (name : String) : Option ObjVis :=
  (objs.find? (fun o => o.1 = name)).map Prod.snd

/-- The validity test of `render_next_object`:
`not (not current_obj or current_obj.name not in bpy.data.objects)`. -/
def validItem (objs : Objects) (it : BatchItem) : Bool :=
  match it.obj with
  | none => false
  | some n => objExists objs n

/-- The loop `for obj in bpy.data.objects: obj.hide_render = True;
obj.hide_viewport = True`. -/
def hideAllObjects (objs : Objects) : Objects :=
  objs.map (fun o => (o.1, ObjVis.mk true true))

/-- `current_obj.hide_render = False; current_obj.hide_viewport = False`. -/
def showObject (objs : Objects) (name : String) : Objects :=
  objs.map (fun o => if o.1 = name then (o.1, ObjVis.mk false false) else o)

/-- One iteration of the restore loop of `finish_batch_render`: if the saved
name still exists, write the saved flags back to that object. -/
def restoreVisStep (objs : Objects) (p : String × ObjVis) : Objects :=
  if objExists objs p.1 then
    objs.map (fun o => if o.1 = p.1 then (p.1, p.2) else o)
  else objs

/-- The restore loop `for obj_name, states in self._visibility_states.items()`
of `finish_batch_render`. -/
def restoreVisibility (objs : Objects) (saved : List (String × ObjVis)) : Objects :=
  saved.foldl restoreVisStep objs

/-- Python `str.strip()` with no arguments (drop whitespace at both ends),
realised structurally on the character list. -/
def strTrim (s : String) : String :=
  ⟨((s.data.dropWhile Char.isWhitespace).reverse.dropWhile Char.isWhitespace).reverse⟩

/-- Python `str.startswith`, structurally on the character lists. -/
def strStartsWith (s p : String) : Bool := p.data.isPrefixOf s.data

/-- Python `str.endswith`, structurally on the character lists. -/
def strEndsWith (s p : String) : Bool := p.data.reverse.isPrefixOf s.data.reverse

/-- Python `f"{n:03d}"` for a natural number. -/
def natPad3 (n : Nat) : String :=
  let s := toString n
  if s.length < 3 then String.mk (List.replicate (3 - s.length) '0') ++ s else s

/-- Python `f"{n:02d}"` for a natural number. -/
def pad2 (n : Nat) : String :=
  let s := toString n
  if s.length < 2 then "0" ++ s else s

/-- Python `f"{i:02d}"` for an integer (a negative value keeps its sign). -/
def pad2Int (i : Int) : String :=
  if i < 0 then toString i else pad2 i.toNat

/-- Python `f"{int(t // 60):02d}:{int(t % 60):02d}"` for a time value `t`
(float floor-division and float modulus). -/
def fmtMMSS (t : ℚ) : String :=
  pad2Int ⌊t / 60⌋ ++ ":" ++ pad2Int ⌊t - 60 * (⌊t / 60⌋ : ℚ)⌋

/-- POSIX `os.path.join` for the two-argument calls the add-on makes. -/
def posixJoin (a b : String) : String :=
  if strStartsWith b "/" then b
  else if a = "" then b
  else if strEndsWith a "/" then a ++ b
  else a ++ "/" ++ b

/-- The `extensions` dict lookup `extensions.get(file_format, '.png')` of
`RENDER_OT_batch_render.get_file_extension`. -/
def get_file_extension (file_format : String) : String :=
  if file_format = "PNG" then ".png"
  else if file_format = "JPEG" then ".jpg"
  else if file_format = "OPEN_EXR" then ".exr"
  else if file_format = "TIFF" then ".tiff"
  else if file_format = "BMP" then ".bmp"
  else if file_format = "TARGA" then ".tga"
  else if file_format = "IRIS" then ".rgb"
  else if file_format = "CINEON" then ".cin"
  else if file_format = "DPX" then ".dpx"
  else ".png"

/-- The `extensions` dict lookup `extensions.get(file_format, '.png')` of
`RENDER_OT_single_object.set_file_extension` (the single-object render path). -/
def set_file_extension_ext (file_format : String) : String :=
  if file_format = "PNG" then ".png"
  else if file_format = "JPEG" then ".jpg"
  else if file_format = "OPEN_EXR" then ".exr"
  else if file_format = "TIFF" then ".tiff"
  else if file_format = "BMP" then ".bmp"
  else if file_format = "TARGA" then ".tga"
  else ".png"

/-- A fresh `RENDER_OT_batch_render` instance over a scene: the class-level
attribute defaults (`_current_index = 0`, `_visibility_states = {}`,
`_original_filepath = ""`, `_start_time = 0`, `_total_objects = 0`,
`_is_running = False`, `_timer = None`), no renders, no reports. -/
def mkInitState (sc : Scene) : SysState :=
  { scene := sc
    op := { current_index := 0, visibility_states := [], original_filepath := ""
            start_time := 0, total_objects := 0, is_running := false }
    renderLog := []
    reports := []
    timerActive := false }

/-- `RENDER_OT_cancel_batch.execute`. -/
def RENDER_OT_cancel_batch_execute (s : SysState) : SysState × OpResult :=
  ({ s with
      scene := { s.scene with batch_render_cancelled := true }
      reports := s.reports ++ [⟨"INFO", "Batch render cancelled"⟩] },
   OpResult.FINISHED)

/-- `RENDER_OT_remove_from_batch.execute`. -/
def RENDER_OT_remove_from_batch_execute (s : SysState) : SysState × OpResult :=
  let sc := s.scene
  let index := sc.batch_render_index
  if 0 ≤ index ∧ index < (sc.batch_render_objects.length : Int) then
    let obj_name :=
      ((sc.batch_render_objects.get? index.toNat).bind BatchItem.obj).getD "Unknown"
    let l2 := sc.batch_render_objects.eraseIdx index.toNat
    let newIndex : Int := min (max 0 (index - 1)) ((l2.length : Int) - 1)
    ({ s with
        scene := { sc with batch_render_objects := l2, batch_render_index := newIndex }
        reports := s.reports ++
          [⟨"INFO", "'" ++ obj_name ++ "' removed from batch list"⟩] },
     OpResult.FINISHED)
  else (s, OpResult.FINISHED)

/-- `RENDER_OT_batch_render.finish_batch_render`. -/
def finish_batch_render (s : SysState) (cancelled : Bool) (now : ℚ) : SysState :=
  let sc1 := { s.scene with render_filepath := s.op.original_filepath }
  let sc2 := { sc1 with objects := restoreVisibility sc1.objects s.op.visibility_states }
  let op2 := { s.op with current_index := 0, visibility_states := [], is_running := false }
  if cancelled then
    { s with
        timerActive := false
        op := op2
        scene := { sc2 with
          batch_render_progress := 0
          batch_render_status := "Cancelled by user"
          batch_render_eta := ""
          batch_render_current_object := ""
          batch_render_cancelled := false } }
  else
    let elapsed := now - s.op.start_time
    { s with
        timerActive := false
        op := op2
        scene := { sc2 with
          batch_render_progress := 100
          batch_render_current_object := ""
          batch_render_status :=
            "Completed! " ++ toString s.op.total_objects ++ " objects rendered"
          batch_render_eta := "Total time: " ++ fmtMMSS elapsed } }

/-- `RENDER_OT_batch_render.update_progress_info`. -/
def update_progress_info (s : SysState) (now : ℚ) : SysState :=
  if 0 < s.op.total_objects ∧ 0 < s.op.current_index then
    let elapsed := now - s.op.start_time
    let avg_time_per_object := elapsed / (s.op.current_index : ℚ)
    let remaining_objects := (s.op.total_objects : ℚ) - (s.op.current_index : ℚ)
    let eta_seconds := avg_time_per_object * remaining_objects
    { s with scene := { s.scene with
        batch_render_eta := "ETA: " ++ fmtMMSS eta_seconds
        batch_render_progress :=
          ((s.op.current_index : ℚ) / (s.op.total_objects : ℚ)) * 100 } }
  else s

/-- Recursion core of `RENDER_OT_batch_render.render_next_object`.  The Python
recursion advances `self._current_index` towards the end of the batch list; it
is realised structurally on the fuel `length - current_index`, which the entry
point computes exactly and every recursive call maintains exactly (each call
increments the index by one on an unchanged list). -/
def render_next_object_go (env : Env) (now : ℚ) : Nat → SysState → SysState
  | 0, s => s
  | k + 1, s =>
    if h : s.op.current_index < s.scene.batch_render_objects.length then
      let item := s.scene.batch_render_objects.get ⟨s.op.current_index, h⟩
      if validItem s.scene.objects item then
        let nm := item.obj.getD ""
        let objs1 := showObject (hideAllObjects s.scene.objects) nm
        let pfx := strTrim s.scene.batch_render_prefixStr
        let clean_name := env.clean_name nm
        let filename :=
          if pfx ≠ "" then
            pfx ++ "_" ++ clean_name ++ "_" ++ natPad3 (s.op.current_index + 1)
          else clean_name ++ "_" ++ natPad3 (s.op.current_index + 1)
        let extension := get_file_extension s.scene.image_file_format
        let filepath :=
          posixJoin (env.abspath s.scene.batch_render_path) (filename ++ extension)
        let s1 := { s with scene := { s.scene with
            objects := objs1
            render_filepath := filepath
            batch_render_current_object := nm
            batch_render_status :=
              "Rendering: " ++ nm ++ " (" ++ toString (s.op.current_index + 1) ++ "/" ++
                toString s.op.total_objects ++ ")" } }
        if env.render_raises s.op.current_index then
          let s2 := { s1 with
              reports := s1.reports ++ [⟨"ERROR", "Failed to render " ++ nm⟩]
              op := { s1.op with current_index := s1.op.current_index + 1 } }
          if s2.op.current_index < s2.scene.batch_render_objects.length then
            render_next_object_go env now k s2
          else finish_batch_render s2 false now
        else
          { s1 with renderLog :=
              s1.renderLog ++ [⟨s.op.current_index, nm, filepath, objs1⟩] }
      else
        let s2 := { s with op := { s.op with current_index := s.op.current_index + 1 } }
        if s2.op.current_index < s2.scene.batch_render_objects.length then
          render_next_object_go env now k s2
        else finish_batch_render s2 false now
    else s

/-- `RENDER_OT_batch_render.render_next_object`. -/
def render_next_object (env : Env) (s : SysState) (now : ℚ) : SysState :=
  render_next_object_go env now
    (s.scene.batch_render_objects.length - s.op.current_index) s

/-- `RENDER_OT_batch_render.modal`, for a `'TIMER'` event whose polled
`is_rendering` value and `time.time()` are given. -/
def RENDER_OT_batch_render_modal (env : Env) (s : SysState) (is_rendering : Bool)
    (now : ℚ) : SysState × OpResult :=
  if s.scene.batch_render_cancelled then
    (finish_batch_render s true now, OpResult.CANCELLED)
  else if !is_rendering && s.op.is_running then
    let s1 := { s with scene := { s.scene with
        batch_render_progress :=
          (((s.op.current_index : ℚ) + 1) / (s.op.total_objects : ℚ)) * 100 } }
    let s2 := { s1 with op := { s1.op with current_index := s1.op.current_index + 1 } }
    if s2.op.current_index < s2.scene.batch_render_objects.length then
      let s3 := render_next_object env s2 now
      ((if s3.op.is_running then update_progress_info s3 now else s3),
       OpResult.PASS_THROUGH)
    else
      (finish_batch_render s2 false now, OpResult.FINISHED)
  else
    ((if s.op.is_running then update_progress_info s now else s),
     OpResult.PASS_THROUGH)

/-- `RENDER_OT_batch_render.execute`. -/
def RENDER_OT_batch_render_execute (env : Env) (s : SysState) (now : ℚ) :
    SysState × OpResult :=
  let sc := s.scene
  if sc.batch_render_objects.length = 0 then
    ({ s with reports := s.reports ++ [⟨"ERROR", "Batch list is empty!"⟩] },
     OpResult.CANCELLED)
  else if sc.batch_render_path = "" then
    ({ s with reports := s.reports ++ [⟨"ERROR", "Output folder not selected!"⟩] },
     OpResult.CANCELLED)
  else
    let output_path := env.abspath sc.batch_render_path
    let mk := if env.path_exists output_path then MakedirsOutcome.ok
              else env.makedirs output_path
    match mk with
    | MakedirsOutcome.permissionError =>
        ({ s with reports := s.reports ++
            [⟨"ERROR", "Cannot create folder: Permission denied!"⟩] },
         OpResult.CANCELLED)
    | MakedirsOutcome.otherError msg =>
        ({ s with reports := s.reports ++
            [⟨"ERROR", "Cannot create folder: " ++ msg⟩] },
         OpResult.CANCELLED)
    | MakedirsOutcome.ok =>
      if env.access_w_ok output_path = false then
        ({ s with reports := s.reports ++
            [⟨"ERROR", "No write permission to output folder!"⟩] },
         OpResult.CANCELLED)
      else
        let s0 : SysState := match env.disk_free output_path with
          | some free =>
              if free < 100 * 1024 * 1024 then
                { s with reports := s.reports ++
                    [⟨"WARNING", "Low disk space detected!"⟩] }
              else s
          | none => s
        let op : OpState :=
          { current_index := 0
            visibility_states := s0.scene.objects
            original_filepath := s0.scene.render_filepath
            start_time := now
            total_objects := s0.scene.batch_render_objects.length
            is_running := true }
        let s1 := { s0 with
            op := op
            scene := { s0.scene with
              batch_render_cancelled := false
              batch_render_progress := 0
              batch_render_current_object := ""
              batch_render_status := "Starting batch render..."
              batch_render_eta := "Calculating..." } }
        let s2 := render_next_object env s1 now
        let s3 := { s2 with
            timerActive := true
            reports := s2.reports ++
              [⟨"INFO", "Batch render started: " ++ toString op.total_objects ++
                " objects"⟩] }
        (s3, OpResult.RUNNING_MODAL)

/-- One timer tick: the cancel operator may run first, then `modal` handles the
`'TIMER'` event. -/
def applyTick (env : Env) (s : SysState) (t : TickIn) : SysState × OpResult :=
  let s1 := if t.cancelPressed then (RENDER_OT_cancel_batch_execute s).1 else s
  RENDER_OT_batch_render_modal env s1 t.is_rendering t.now

/-- Run timer ticks until the batch is no longer running; `none` when the
supplied ticks do not suffice to end it. -/
def runTicks (env : Env) (s : SysState) (ticks : List TickIn) : Option SysState :=
  if s.op.is_running = false then some s
  else match ticks with
    | [] => none
    | t :: rest => runTicks env (applyTick env s t).1 rest

/-- Run a given list of timer ticks (stopping early once the batch has ended),
returning the state reached. -/
def runPartial (env : Env) (s : SysState) (ticks : List TickIn) : SysState :=
  if s.op.is_running = false then s
  else match ticks with
    | [] => s
    | t :: rest => runPartial env (applyTick env s t).1 rest

/-- Validity of the batch-list entry at an index of a scene. -/
def validIdxScene (sc : Scene) (j : Nat) : Bool :=
  match sc.batch_render_objects.get? j with
  | some it => validItem sc.objects it
  | none => false

/-- Validity of the batch-list entry at an index of a running state. -/
def validAt (s : SysState) (j : Nat) : Bool := validIdxScene s.scene j

/-- Name stored in the batch-list entry at an index, if any. -/
def entryName (s : SysState) (j : Nat) : Option String :=
  (s.scene.batch_render_objects.get? j).bind BatchItem.obj

/-- Indices below `k` whose batch-list entry satisfies `P`. -/
def upTo (P : Nat → Bool) (k : Nat) : List Nat := (List.range k).filter P

/-- Number of ticks whose poll reported the render job done. -/
def countDone (ticks : List TickIn) : Nat :=
  (ticks.filter (fun t => !t.is_rendering)).length

/-- Run invariant for the traversal order (C2): names and list preserved, not
cancelled, and the render log holds exactly the valid indices below the
current position (below the whole list once the run has stopped). -/
def InvC2 (s0 : Scene) (s : SysState) : Prop :=
  s.scene.objects.map Prod.fst = s0.objects.map Prod.fst ∧
  s.scene.batch_render_objects = s0.batch_render_objects ∧
  s.scene.batch_render_cancelled = false ∧
  (s.op.is_running = true →
    s.op.current_index < s0.batch_render_objects.length ∧
    validIdxScene s0 s.op.current_index = true ∧
    s.renderLog.map RenderEvent.idx =
      upTo (validIdxScene s0) (s.op.current_index + 1)) ∧
  (s.op.is_running = false →
    s.renderLog.map RenderEvent.idx =
      upTo (validIdxScene s0) s0.batch_render_objects.length)

/-- Run invariant for progress tracking (C8, all entries valid): names, list,
total count preserved, not cancelled, and the progress always equals
completed-count over total times 100. -/
def InvC8 (s0 : Scene) (s : SysState) : Prop :=
  s.scene.objects.map Prod.fst = s0.objects.map Prod.fst ∧
  s.scene.batch_render_objects = s0.batch_render_objects ∧
  s.scene.batch_render_cancelled = false ∧
  s.op.total_objects = s0.batch_render_objects.length ∧
  (s.op.is_running = true →
    s.op.current_index < s0.batch_render_objects.length ∧
    s.scene.batch_render_progress =
      ((s.op.current_index : ℚ) / (s0.batch_render_objects.length : ℚ)) * 100) ∧
  (s.op.is_running = false → s.scene.batch_render_progress = 100)

/-- Run invariant tying a state of a batch run to the scene `s0` at batch
start: object names are preserved, the batch list is unchanged, the operator
holds the original filepath, while running it holds the visibility snapshot,
and once it has stopped the snapshot has been written back. -/
def Inv (s0 : Scene) (s : SysState) : Prop :=
  s.scene.objects.map Prod.fst = s0.objects.map Prod.fst ∧
  s.scene.batch_render_objects = s0.batch_render_objects ∧
  s.op.original_filepath = s0.render_filepath ∧
  (s.op.is_running = true → s.op.visibility_states = s0.objects) ∧
  (s.op.is_running = false → s.op.visibility_states = [] ∧
    s.scene.objects = s0.objects ∧ s.scene.render_filepath = s0.render_filepath)


/-- A benign host environment for concrete evaluations: identity path
functions, existing writable output directory, ample disk space, renders that
never raise. -/
def env0 : Env :=
  { abspath := fun p => p
    clean_name := fun n => n
    path_exists := fun _ => true
    makedirs := fun _ => MakedirsOutcome.ok
    access_w_ok := fun _ => true
    disk_free := fun _ => some (200 * 1024 * 1024)
    render_raises := fun _ => false }

/-- A concrete two-object scene with both objects queued for batch render. -/
def sceneA : Scene :=
  { objects := [("Cube", ⟨false, false⟩), ("Lamp", ⟨true, false⟩)]
    render_filepath := "orig.png"
    image_file_format := "JPEG"
    batch_render_objects := [⟨some "Cube"⟩, ⟨some "Lamp"⟩]
    batch_render_index := 0
    batch_render_path := "/out"
    batch_render_prefixStr := "pj"
    batch_render_progress := 0
    batch_render_current_object := ""
    batch_render_status := "Ready"
    batch_render_eta := ""
    batch_render_cancelled := false }

/-- A concrete one-object scene whose single object is queued. -/
def sceneB : Scene :=
  { sceneA with
    objects := [("Cube", ⟨false, false⟩)]
    batch_render_objects := [⟨some "Cube"⟩] }

/-- The render event logged when the batch over `sceneA` starts entry 0. -/
def eventCube : RenderEvent :=
  { idx := 0, objName := "Cube", filepath := "/out/pj_Cube_001.jpg"
    objects := [("Cube", ⟨false, false⟩), ("Lamp", ⟨true, true⟩)] }

/-- A mid-run state over `sceneA` on which the user has pressed cancel. -/
def cancelledStateA : SysState :=
  { scene := { sceneA with batch_render_cancelled := true }
    op := { current_index := 0, visibility_states := sceneA.objects
            original_filepath := "orig.png", start_time := 10, total_objects := 2
            is_running := true }
    renderLog := []
    reports := []
    timerActive := true }

/-- The render event logged when the batch over `sceneA` starts entry 1. -/
def eventLamp : RenderEvent :=
  { idx := 1, objName := "Lamp", filepath := "/out/pj_Lamp_002.jpg"
    objects := [("Cube", ⟨true, true⟩), ("Lamp", ⟨false, false⟩)] }

/-- Tick schedule completing both entries of `sceneA`. -/
def ticksRun : List TickIn := [⟨false, false, 11⟩, ⟨false, false, 12⟩]

/-- Tick schedule completing both entries of `sceneA` with one still-rendering
poll in between. -/
def ticksRun8 : List TickIn :=
  [⟨false, false, 11⟩, ⟨false, true, 12⟩, ⟨false, false, 13⟩]

/-- Tick schedule of a run cancelled at the first timer event. -/
def ticksCancel : List TickIn := [⟨true, true, 11⟩]

/-- The final state of the concrete batch run over `sceneA` that the user
cancels at the first timer event. -/
def finalCancel : SysState :=
  (runTicks env0 ((RENDER_OT_batch_render_execute env0 (mkInitState sceneA) 10).1)
    ticksCancel).getD (mkInitState sceneA)

/-! ### Basic lemmas about the visibility operations -/

theorem map_fst_hideAllObjects (objs : Objects) :
    (hideAllObjects objs).map Prod.fst = objs.map Prod.fst := by
  simp [hideAllObjects]

theorem map_fst_showObject (objs : Objects) (nm : String) :
    (showObject objs nm).map Prod.fst = objs.map Prod.fst := by
  induction objs with
  | nil => rfl
  | cons a l ih =>
    by_cases hh : a.1 = nm <;> simp [showObject, hh] <;>
      simpa [showObject] using ih

theorem map_fst_update (objs : Objects) (n : String) (v : ObjVis) :
    (objs.map (fun o => if o.1 = n then (n, v) else o)).map Prod.fst
      = objs.map Prod.fst := by
  induction objs with
  | nil => rfl
  | cons a l ih => by_cases hh : a.1 = n <;> simp [hh, ih]

theorem map_fst_restoreVisStep (objs : Objects) (p : String × ObjVis) :
    (restoreVisStep objs p).map Prod.fst = objs.map Prod.fst := by
  unfold restoreVisStep
  split_ifs with h
  · exact map_fst_update objs p.1 p.2
  · rfl

theorem map_fst_restoreVisibility (saved : List (String × ObjVis)) (objs : Objects) :
    (restoreVisibility objs saved).map Prod.fst = objs.map Prod.fst := by
  induction saved generalizing objs with
  | nil => rfl
  | cons p rest ih =>
    simp only [restoreVisibility, List.foldl_cons]
    rw [show List.foldl restoreVisStep (restoreVisStep objs p) rest
          = restoreVisibility (restoreVisStep objs p) rest from rfl]
    rw [ih (restoreVisStep objs p), map_fst_restoreVisStep]

theorem objExists_eq_keys (objs : Objects) (nm : String) :
    objExists objs nm = (objs.map Prod.fst).any (fun x => x = nm) := by
  induction objs with
  | nil => rfl
  | cons a l ih => simp [objExists, List.any_cons] at ih ⊢; rw [ih]

theorem objExists_congr (a b : Objects) (hk : a.map Prod.fst = b.map Prod.fst)
    (nm : String) : objExists a nm = objExists b nm := by
  rw [objExists_eq_keys, objExists_eq_keys, hk]

theorem map_update_absent (objs : Objects) (n : String) (v : ObjVis)
    (h : n ∉ objs.map Prod.fst) :
    objs.map (fun o => if o.1 = n then (n, v) else o) = objs := by
  induction objs with
  | nil => rfl
  | cons a l ih =>
    simp only [List.map_cons, List.mem_cons] at h
    push_neg at h
    simp only [List.map_cons]
    rw [if_neg (fun he => h.1 he.symm), ih h.2]

theorem restoreVisStep_cons_ne (a : String × ObjVis) (objs : Objects)
    (p : String × ObjVis) (hne : p.1 ≠ a.1) :
    restoreVisStep (a :: objs) p = a :: restoreVisStep objs p := by
  have hb : objExists (a :: objs) p.1 = objExists objs p.1 := by
    unfold objExists
    simp [List.any_cons, Ne.symm hne]
  unfold restoreVisStep
  rw [hb]
  split_ifs with h
  · simp only [List.map_cons]
    rw [if_neg (Ne.symm hne)]
  · rfl

theorem restoreVisibility_cons_ne (saved : List (String × ObjVis))
    (a : String × ObjVis) (objs : Objects) (h : ∀ p ∈ saved, p.1 ≠ a.1) :
    restoreVisibility (a :: objs) saved = a :: restoreVisibility objs saved := by
  induction saved generalizing objs with
  | nil => rfl
  | cons p rest ih =>
    have e1 : restoreVisibility (a :: objs) (p :: rest)
        = restoreVisibility (restoreVisStep (a :: objs) p) rest := rfl
    have e2 : restoreVisibility objs (p :: rest)
        = restoreVisibility (restoreVisStep objs p) rest := rfl
    rw [e1, e2, restoreVisStep_cons_ne a objs p (h p (by simp))]
    exact ih (restoreVisStep objs p) (fun q hq => h q (by simp [hq]))

theorem restoreVisibility_full (saved : List (String × ObjVis)) (objs : Objects)
    (hkeys : objs.map Prod.fst = saved.map Prod.fst)
    (hnodup : (saved.map Prod.fst).Nodup) :
    restoreVisibility objs saved = saved := by
  induction saved generalizing objs with
  | nil =>
    have h0 : objs = [] := by simpa using hkeys
    rw [h0]
    rfl
  | cons p rest ih =>
    cases objs with
    | nil => simp at hkeys
    | cons a objs2 =>
      simp only [List.map_cons, List.cons.injEq] at hkeys
      obtain ⟨ha, hk2⟩ := hkeys
      simp only [List.map_cons, List.nodup_cons] at hnodup
      obtain ⟨hpnot, hnd2⟩ := hnodup
      simp only [restoreVisibility, List.foldl_cons]
      have hstep : restoreVisStep (a :: objs2) p = (p.1, p.2) :: objs2 := by
        unfold restoreVisStep
        have hcond : objExists (a :: objs2) p.1 = true := by
          unfold objExists
          simp [List.any_cons, ha]
        rw [if_pos hcond]
        simp only [List.map_cons]
        rw [if_pos ha]
        congr 1
        apply map_update_absent
        rw [hk2]
        exact hpnot
      rw [hstep]
      rw [show List.foldl restoreVisStep ((p.1, p.2) :: objs2) rest
            = restoreVisibility ((p.1, p.2) :: objs2) rest from rfl]
      rw [restoreVisibility_cons_ne rest (p.1, p.2) objs2
            (fun q hq he => hpnot (he ▸ List.mem_map_of_mem Prod.fst hq))]
      rw [ih objs2 hk2 hnd2]

/-! ### Projection facts about `finish_batch_render` -/

theorem finish_renderLog (s : SysState) (c : Bool) (now : ℚ) :
    (finish_batch_render s c now).renderLog = s.renderLog := by
  unfold finish_batch_render
  split_ifs <;> rfl

theorem finish_op (s : SysState) (c : Bool) (now : ℚ) :
    (finish_batch_render s c now).op =
      { s.op with current_index := 0, visibility_states := [], is_running := false } := by
  unfold finish_batch_render
  split_ifs <;> rfl

theorem finish_objects (s : SysState) (c : Bool) (now : ℚ) :
    (finish_batch_render s c now).scene.objects =
      restoreVisibility s.scene.objects s.op.visibility_states := by
  unfold finish_batch_render
  split_ifs <;> rfl

theorem finish_filepath (s : SysState) (c : Bool) (now : ℚ) :
    (finish_batch_render s c now).scene.render_filepath = s.op.original_filepath := by
  unfold finish_batch_render
  split_ifs <;> rfl

theorem finish_list (s : SysState) (c : Bool) (now : ℚ) :
    (finish_batch_render s c now).scene.batch_render_objects =
      s.scene.batch_render_objects := by
  unfold finish_batch_render
  split_ifs <;> rfl

theorem finish_cancelled_flag (s : SysState) (now : ℚ) :
    (finish_batch_render s false now).scene.batch_render_cancelled =
      s.scene.batch_render_cancelled := rfl

theorem finish_progress_done (s : SysState) (now : ℚ) :
    (finish_batch_render s false now).scene.batch_render_progress = 100 := rfl

theorem update_progress_renderLog (s : SysState) (now : ℚ) :
    (update_progress_info s now).renderLog = s.renderLog := by
  unfold update_progress_info
  split_ifs <;> rfl

theorem update_progress_op (s : SysState) (now : ℚ) :
    (update_progress_info s now).op = s.op := by
  unfold update_progress_info
  split_ifs <;> rfl

/-! ### C3: no render is started while the polled render job is running -/

/-- C3: at every point during a batch run at most one render job is active:
whenever the `'TIMER'` handler `modal` polls `is_rendering = true` (a host
`'RENDER'` job is still running), it starts no render — the render log is
unchanged — so a new render is only ever invoked after a poll reported the job
done. -/
theorem modal_no_render_while_job_running (env : Env) (s : SysState) (now : ℚ) :
    ((RENDER_OT_batch_render_modal env s true now).1).renderLog = s.renderLog := by
  unfold RENDER_OT_batch_render_modal
  have hb : (!true && s.op.is_running) = false := by simp
  rw [hb]
  simp only [Bool.false_eq_true, if_false]
  split_ifs with h1 h2
  · exact finish_renderLog s true now
  · exact update_progress_renderLog s now
  · rfl

/-! ### C9: single-object vs batch extension choice -/

/-- C9 counterexample: the claim that `set_file_extension` and
`get_file_extension` choose the same extension for every format fails at
`"IRIS"`: the single-object path yields `".png"`, the batch path `".rgb"`. -/
theorem extension_choices_differ_on_IRIS :
    set_file_extension_ext "IRIS" = ".png" ∧ get_file_extension "IRIS" = ".rgb" ∧
      set_file_extension_ext "IRIS" ≠ get_file_extension "IRIS" := by
  refine ⟨rfl, rfl, ?_⟩
  decide

/-- C9 (amended): for every image file format other than `"IRIS"`, `"CINEON"`
and `"DPX"` (which only the batch map knows), the extension chosen by the
single-object render path equals the extension chosen by the batch path. -/
theorem extension_choices_agree_off_batch_only_formats (ff : String)
    (h1 : ff ≠ "IRIS") (h2 : ff ≠ "CINEON") (h3 : ff ≠ "DPX") :
    set_file_extension_ext ff = get_file_extension ff := by
  unfold set_file_extension_ext get_file_extension
  split_ifs <;> simp_all

/-- C9 witness: the amended agreement, instantiated at `"JPEG"`. -/
theorem extension_choices_agree_witness :
    set_file_extension_ext "JPEG" = get_file_extension "JPEG" :=
  extension_choices_agree_off_batch_only_formats "JPEG" (by decide) (by decide)
    (by decide)

/-! ### C10: the stored index after removing a batch-list entry -/

/-- C10 counterexample: removing the only entry (index 0 of a length-1 list,
which is in bounds) leaves the stored selection index at `-1`, which is not a
valid index of the now-empty list. -/
theorem remove_from_batch_invalid_index_counterexample :
    (0 ≤ (mkInitState sceneB).scene.batch_render_index ∧
      (mkInitState sceneB).scene.batch_render_index <
        ((mkInitState sceneB).scene.batch_render_objects.length : Int)) ∧
    (RENDER_OT_remove_from_batch_execute (mkInitState sceneB)).1.scene.batch_render_objects = [] ∧
    (RENDER_OT_remove_from_batch_execute (mkInitState sceneB)).1.scene.batch_render_index = -1 ∧
    ¬ (0 ≤ (RENDER_OT_remove_from_batch_execute (mkInitState sceneB)).1.scene.batch_render_index ∧
        (RENDER_OT_remove_from_batch_execute (mkInitState sceneB)).1.scene.batch_render_index <
          ((RENDER_OT_remove_from_batch_execute (mkInitState sceneB)).1.scene.batch_render_objects.length : Int)) := by
  decide

/-- C10 (amended): after the remove-from-list operator deletes the entry at an
in-bounds selection index, the stored index is a valid index of the remaining
list whenever that list is non-empty; when the list becomes empty the stored
index is `-1`. -/
theorem remove_from_batch_index_valid_or_neg_one (s : SysState)
    (h0 : 0 ≤ s.scene.batch_render_index)
    (h1 : s.scene.batch_render_index < (s.scene.batch_render_objects.length : Int)) :
    ((RENDER_OT_remove_from_batch_execute s).1.scene.batch_render_objects ≠ [] →
      0 ≤ (RENDER_OT_remove_from_batch_execute s).1.scene.batch_render_index ∧
      (RENDER_OT_remove_from_batch_execute s).1.scene.batch_render_index <
        ((RENDER_OT_remove_from_batch_execute s).1.scene.batch_render_objects.length : Int)) ∧
    ((RENDER_OT_remove_from_batch_execute s).1.scene.batch_render_objects = [] →
      (RENDER_OT_remove_from_batch_execute s).1.scene.batch_render_index = -1) := by
  unfold RENDER_OT_remove_from_batch_execute
  rw [if_pos ⟨h0, h1⟩]
  dsimp only
  have hlt : s.scene.batch_render_index.toNat < s.scene.batch_render_objects.length := by
    omega
  have hlen : (s.scene.batch_render_objects.eraseIdx
      s.scene.batch_render_index.toNat).length + 1 = s.scene.batch_render_objects.length :=
    List.length_eraseIdx_add_one hlt
  constructor
  · intro hne
    have hlen2 : 0 < (s.scene.batch_render_objects.eraseIdx
        s.scene.batch_render_index.toNat).length := List.length_pos.mpr hne
    simp only [inf_eq_min, sup_eq_max, min_def, max_def]
    split_ifs <;> omega
  · intro hemp
    have hlen0 : (s.scene.batch_render_objects.eraseIdx
        s.scene.batch_render_index.toNat).length = 0 := by rw [hemp]; rfl
    rw [hlen0]
    have hidx : s.scene.batch_render_index = 0 := by omega
    rw [hidx]
    decide

/-! ### C5: cancellation behaviour of the next timer event -/

/-- C5: if the cancel operator has set the cancelled flag while a batch is
running, the next `'TIMER'` event makes `modal` stop without starting further
renders, restore the saved render filepath and visibility snapshot, set the
status to "Cancelled by user", reset the progress to 0, clear the cancelled
flag, and return `CANCELLED`. -/
theorem modal_cancelled_stops_and_restores (env : Env) (s : SysState)
    (is_rendering : Bool) (now : ℚ)
    (hc : s.scene.batch_render_cancelled = true)
    (hrun : s.op.is_running = true)
    (hkeys : s.scene.objects.map Prod.fst = s.op.visibility_states.map Prod.fst)
    (hnodup : (s.op.visibility_states.map Prod.fst).Nodup) :
    (RENDER_OT_batch_render_modal env s is_rendering now).2 = OpResult.CANCELLED ∧
    (RENDER_OT_batch_render_modal env s is_rendering now).1.renderLog = s.renderLog ∧
    (RENDER_OT_batch_render_modal env s is_rendering now).1.scene.objects =
      s.op.visibility_states ∧
    (RENDER_OT_batch_render_modal env s is_rendering now).1.scene.render_filepath =
      s.op.original_filepath ∧
    (RENDER_OT_batch_render_modal env s is_rendering now).1.scene.batch_render_status =
      "Cancelled by user" ∧
    (RENDER_OT_batch_render_modal env s is_rendering now).1.scene.batch_render_progress = 0 ∧
    (RENDER_OT_batch_render_modal env s is_rendering now).1.scene.batch_render_cancelled =
      false ∧
    (RENDER_OT_batch_render_modal env s is_rendering now).1.op.is_running = false := by
  have hm : RENDER_OT_batch_render_modal env s is_rendering now =
      (finish_batch_render s true now, OpResult.CANCELLED) := by
    unfold RENDER_OT_batch_render_modal
    rw [if_pos hc]
  rw [hm]
  refine ⟨rfl, finish_renderLog s true now, ?_, ?_, ?_, ?_, ?_, ?_⟩
  · rw [finish_objects]
    exact restoreVisibility_full s.op.visibility_states s.scene.objects hkeys hnodup
  · exact finish_filepath s true now
  · rfl
  · rfl
  · rfl
  · rfl

/-! ### C6: precondition checks of `execute` -/

/-- C6: starting a batch render fails with `CANCELLED` and a single error
report, leaving the scene (all visibility flags included) untouched and
starting no render, whenever the batch list is empty, the output path is
unset, the output directory does not exist and cannot be created, or the
output directory is not writable. -/
theorem execute_rejects_bad_preconditions (env : Env) (s : SysState) (now : ℚ)
    (h : s.scene.batch_render_objects = [] ∨ s.scene.batch_render_path = "" ∨
      (env.path_exists (env.abspath s.scene.batch_render_path) = false ∧
        env.makedirs (env.abspath s.scene.batch_render_path) ≠ MakedirsOutcome.ok) ∨
      env.access_w_ok (env.abspath s.scene.batch_render_path) = false) :
    (RENDER_OT_batch_render_execute env s now).2 = OpResult.CANCELLED ∧
    ∃ msg, (RENDER_OT_batch_render_execute env s now).1 =
      { s with reports := s.reports ++ [⟨"ERROR", msg⟩] } := by
  unfold RENDER_OT_batch_render_execute
  by_cases h1 : s.scene.batch_render_objects.length = 0
  · rw [if_pos h1]
    exact ⟨rfl, "Batch list is empty!", rfl⟩
  · rw [if_neg h1]
    by_cases h2 : s.scene.batch_render_path = ""
    · rw [if_pos h2]
      exact ⟨rfl, "Output folder not selected!", rfl⟩
    · rw [if_neg h2]
      dsimp only
      rcases hmk : (if env.path_exists (env.abspath s.scene.batch_render_path)
          then MakedirsOutcome.ok
          else env.makedirs (env.abspath s.scene.batch_render_path)) with _ | _ | msg
      · have hw : env.access_w_ok (env.abspath s.scene.batch_render_path) = false := by
          rcases h with h | h | ⟨hne, hmk2⟩ | h
          · exact absurd (by rw [h]; rfl) h1
          · exact absurd h h2
          · rw [if_neg (by rw [hne]; exact fun hy => by cases hy)] at hmk
            exact absurd hmk hmk2
          · exact h
        dsimp only
        rw [if_pos hw]
        exact ⟨rfl, "No write permission to output folder!", rfl⟩
      · exact ⟨rfl, "Cannot create folder: Permission denied!", rfl⟩
      · exact ⟨rfl, "Cannot create folder: " ++ msg, rfl⟩

/-! ### The successful branch of `render_next_object`, and C7 -/

/-- Characterisation of `render_next_object` when the current entry is in
bounds and valid and the host render call does not raise: visibility is
switched to the current object alone, the filepath, current-object and status
fields are set, and the render invocation is logged; nothing else changes. -/
theorem render_next_object_success (env : Env) (s : SysState) (now : ℚ)
    (h : s.op.current_index < s.scene.batch_render_objects.length)
    (hval : validItem s.scene.objects
      (s.scene.batch_render_objects.get ⟨s.op.current_index, h⟩) = true)
    (hfail : env.render_raises s.op.current_index = false) :
    render_next_object env s now =
      (let nm := (s.scene.batch_render_objects.get ⟨s.op.current_index, h⟩).obj.getD ""
       let objs1 := showObject (hideAllObjects s.scene.objects) nm
       let fp := posixJoin (env.abspath s.scene.batch_render_path)
         ((if strTrim s.scene.batch_render_prefixStr ≠ "" then
             strTrim s.scene.batch_render_prefixStr ++ "_" ++ env.clean_name nm ++ "_" ++
               natPad3 (s.op.current_index + 1)
           else env.clean_name nm ++ "_" ++ natPad3 (s.op.current_index + 1))
          ++ get_file_extension s.scene.image_file_format)
       { s with
          scene := { s.scene with
            objects := objs1
            render_filepath := fp
            batch_render_current_object := nm
            batch_render_status :=
              "Rendering: " ++ nm ++ " (" ++ toString (s.op.current_index + 1) ++ "/" ++
                toString s.op.total_objects ++ ")" }
          renderLog := s.renderLog ++ [⟨s.op.current_index, nm, fp, objs1⟩] }) := by
  unfold render_next_object
  obtain ⟨k, hk⟩ : ∃ k,
      s.scene.batch_render_objects.length - s.op.current_index = k + 1 :=
    ⟨s.scene.batch_render_objects.length - s.op.current_index - 1, by omega⟩
  rw [hk, render_next_object_go]
  rw [dif_pos h, if_pos hval, hfail]
  rfl

/-- C7: when the batch sequencer starts the render of the list entry at
0-based index `i` holding object name `nm`, the render output filepath it
installs is the output directory (`bpy.path.abspath` of the batch path)
joined with `P ++ "_" ++ C ++ "_" ++ NNN` — or `C ++ "_" ++ NNN` when the
stripped user prefix `P` is empty — where `C` is the cleaned object name and
`NNN` the 1-based index zero-padded to three digits, followed by the extension
mapped from the image file format; formats outside the extension map default
to ".png". -/
theorem batch_output_filepath (env : Env) (s : SysState) (now : ℚ) (nm : String)
    (h : s.op.current_index < s.scene.batch_render_objects.length)
    (hnm : (s.scene.batch_render_objects.get ⟨s.op.current_index, h⟩).obj = some nm)
    (hex : objExists s.scene.objects nm = true)
    (hfail : env.render_raises s.op.current_index = false) :
    (render_next_object env s now).scene.render_filepath =
      posixJoin (env.abspath s.scene.batch_render_path)
        ((if strTrim s.scene.batch_render_prefixStr ≠ "" then
            strTrim s.scene.batch_render_prefixStr ++ "_" ++ env.clean_name nm ++ "_" ++
              natPad3 (s.op.current_index + 1)
          else env.clean_name nm ++ "_" ++ natPad3 (s.op.current_index + 1))
         ++ get_file_extension s.scene.image_file_format) ∧
    (∀ ff : String, ff ∉ (["PNG", "JPEG", "OPEN_EXR", "TIFF", "BMP", "TARGA",
        "IRIS", "CINEON", "DPX"] : List String) → get_file_extension ff = ".png") := by
  have hval : validItem s.scene.objects
      (s.scene.batch_render_objects.get ⟨s.op.current_index, h⟩) = true := by
    unfold validItem
    rw [hnm]
    exact hex
  constructor
  · rw [render_next_object_success env s now h hval hfail]
    dsimp only
    rw [hnm]
    rfl
  · intro ff hff
    unfold get_file_extension
    split_ifs <;> simp_all

/-! ### C4: visibility at the moment a render is started -/

theorem isolated_after_show (objs : Objects) (nm : String) :
    ∀ p ∈ showObject (hideAllObjects objs) nm,
      p.2 = if p.1 = nm then ObjVis.mk false false else ObjVis.mk true true := by
  intro p hp
  unfold showObject hideAllObjects at hp
  rw [List.map_map] at hp
  obtain ⟨q, hq, rfl⟩ := List.mem_map.mp hp
  by_cases hqn : q.1 = nm <;> simp [Function.comp, hqn]

theorem showObject_cons (a : String × ObjVis) (l : Objects) (nm : String) :
    showObject (hideAllObjects (a :: l)) nm =
      (if a.1 = nm then (a.1, ObjVis.mk false false) else (a.1, ObjVis.mk true true)) ::
        showObject (hideAllObjects l) nm := by
  unfold showObject hideAllObjects
  simp only [List.map_cons]

theorem lookupVis_show (objs : Objects) (nm : String)
    (hex : objExists objs nm = true) :
    lookupVis (showObject (hideAllObjects objs) nm) nm = some (ObjVis.mk false false) := by
  induction objs with
  | nil => simp [objExists] at hex
  | cons a l ih =>
    rw [showObject_cons]
    by_cases ha : a.1 = nm
    · rw [if_pos ha]
      unfold lookupVis
      rw [List.find?_cons_of_pos _ (by simpa using ha)]
      simp
    · rw [if_neg ha]
      unfold lookupVis
      rw [List.find?_cons_of_neg _ (by simpa using ha)]
      have hex2 : objExists l nm = true := by
        unfold objExists at hex ⊢
        simpa [List.any_cons, ha] using hex
      exact ih hex2

/-- C4: every render invocation the batch sequencer logs renders the current
list entry's object in isolation: the event's object name is the name stored
in the batch-list entry at the event's index, that object's `hide_viewport`
and `hide_render` flags are `false`, and every other object's flags are
`true`. -/
theorem render_start_isolates_object (env : Env) (s : SysState) (now : ℚ)
    (e : RenderEvent) (he : e ∈ (render_next_object env s now).renderLog) :
    e ∈ s.renderLog ∨
      (entryName s e.idx = some e.objName ∧
       lookupVis e.objects e.objName = some (ObjVis.mk false false) ∧
       ∀ p ∈ e.objects, p.1 ≠ e.objName → p.2 = ObjVis.mk true true) := by
  suffices H : ∀ (k : Nat) (s : SysState) (now : ℚ),
      ∀ e : RenderEvent, e ∈ (render_next_object_go env now k s).renderLog →
      e ∈ s.renderLog ∨
        (entryName s e.idx = some e.objName ∧
         lookupVis e.objects e.objName = some (ObjVis.mk false false) ∧
         ∀ p ∈ e.objects, p.1 ≠ e.objName → p.2 = ObjVis.mk true true) by
    rw [render_next_object] at he
    exact H (s.scene.batch_render_objects.length - s.op.current_index) s now e he
  intro k
  induction k with
  | zero =>
    intro s now e he
    exact Or.inl he
  | succ k ih =>
    intro s now e he
    by_cases h : s.op.current_index < s.scene.batch_render_objects.length
    · rw [render_next_object_go, dif_pos h] at he
      dsimp only at he
      by_cases hval : validItem s.scene.objects
          (s.scene.batch_render_objects.get ⟨s.op.current_index, h⟩) = true
      · rw [if_pos hval] at he
        by_cases hraise : env.render_raises s.op.current_index = true
        · rw [if_pos hraise] at he
          by_cases hlt : s.op.current_index + 1 < s.scene.batch_render_objects.length
          · rw [if_pos hlt] at he
            rcases ih _ now e he with hl | hr
            · exact Or.inl hl
            · exact Or.inr hr
          · rw [if_neg hlt, finish_renderLog] at he
            exact Or.inl he
        · rw [if_neg hraise] at he
          dsimp only at he
          rw [List.mem_append] at he
          rcases he with he | he
          · exact Or.inl he
          · right
            rw [List.mem_singleton] at he
            subst he
            obtain ⟨nm, hnm⟩ : ∃ nm,
                (s.scene.batch_render_objects.get ⟨s.op.current_index, h⟩).obj
                  = some nm := by
              unfold validItem at hval
              cases hobj : (s.scene.batch_render_objects.get
                  ⟨s.op.current_index, h⟩).obj with
              | none => rw [hobj] at hval; cases hval
              | some n => exact ⟨n, rfl⟩
            have hex : objExists s.scene.objects nm = true := by
              unfold validItem at hval
              rw [hnm] at hval
              exact hval
            refine ⟨?_, ?_, ?_⟩
            · show entryName s s.op.current_index = _
              unfold entryName
              rw [List.get?_eq_get h, Option.some_bind, hnm]
              rfl
            · show lookupVis _ ((s.scene.batch_render_objects.get
                  ⟨s.op.current_index, h⟩).obj.getD "") = _
              rw [hnm]
              exact lookupVis_show s.scene.objects nm hex
            · intro p hp hpn
              have hiso := isolated_after_show s.scene.objects
                ((s.scene.batch_render_objects.get
                  ⟨s.op.current_index, h⟩).obj.getD "") p hp
              rw [if_neg hpn] at hiso
              exact hiso
      · rw [if_neg hval] at he
        by_cases hlt : s.op.current_index + 1 < s.scene.batch_render_objects.length
        · rw [if_pos hlt] at he
          rcases ih _ now e he with hl | hr
          · exact Or.inl hl
          · exact Or.inr hr
        · rw [if_neg hlt, finish_renderLog] at he
          exact Or.inl he
    · rw [render_next_object_go, dif_neg h] at he
      exact Or.inl he

/-- C4 witness: starting the batch over `sceneA` logs the render of entry 0
("Cube"), and that event shows "Cube" visible and every other object hidden. -/
theorem render_start_isolates_witness :
    eventCube ∈ (render_next_object env0 (mkInitState sceneA) 10).renderLog ∧
    (eventCube ∈ (mkInitState sceneA).renderLog ∨
      (entryName (mkInitState sceneA) eventCube.idx = some eventCube.objName ∧
       lookupVis eventCube.objects eventCube.objName = some (ObjVis.mk false false) ∧
       ∀ p ∈ eventCube.objects, p.1 ≠ eventCube.objName →
         p.2 = ObjVis.mk true true)) := by
  have he : eventCube ∈ (render_next_object env0 (mkInitState sceneA) 10).renderLog := by
    decide
  exact ⟨he, render_start_isolates_object env0 (mkInitState sceneA) 10 eventCube he⟩

/-- C5 witness: on the concrete cancelled state over `sceneA`, the next timer
event returns `CANCELLED`, starts nothing, and restores the saved snapshot. -/
theorem modal_cancelled_witness :
    (RENDER_OT_batch_render_modal env0 cancelledStateA true 11).2 =
      OpResult.CANCELLED ∧
    (RENDER_OT_batch_render_modal env0 cancelledStateA true 11).1.renderLog =
      cancelledStateA.renderLog ∧
    (RENDER_OT_batch_render_modal env0 cancelledStateA true 11).1.scene.objects =
      cancelledStateA.op.visibility_states ∧
    (RENDER_OT_batch_render_modal env0 cancelledStateA true 11).1.scene.render_filepath =
      cancelledStateA.op.original_filepath ∧
    (RENDER_OT_batch_render_modal env0 cancelledStateA true 11).1.scene.batch_render_status =
      "Cancelled by user" ∧
    (RENDER_OT_batch_render_modal env0 cancelledStateA true 11).1.scene.batch_render_progress
      = 0 ∧
    (RENDER_OT_batch_render_modal env0 cancelledStateA true 11).1.scene.batch_render_cancelled
      = false ∧
    (RENDER_OT_batch_render_modal env0 cancelledStateA true 11).1.op.is_running = false :=
  modal_cancelled_stops_and_restores env0 cancelledStateA true 11 rfl rfl
    (by decide) (by decide)

/-- C6 witness: with an empty batch list, `execute` returns `CANCELLED`. -/
theorem execute_rejects_witness :
    (RENDER_OT_batch_render_execute env0
      (mkInitState { sceneA with batch_render_objects := [] }) 10).2 =
      OpResult.CANCELLED :=
  (execute_rejects_bad_preconditions env0
    (mkInitState { sceneA with batch_render_objects := [] }) 10 (Or.inl rfl)).1

/-- C7 witness: the first render of the batch over `sceneA` writes to the
output directory joined with the prefixed, cleaned, zero-padded filename and
the extension of the JPEG format. -/
theorem batch_output_filepath_witness :
    (render_next_object env0 (mkInitState sceneA) 10).scene.render_filepath =
      posixJoin (env0.abspath sceneA.batch_render_path)
        ((if strTrim sceneA.batch_render_prefixStr ≠ "" then
            strTrim sceneA.batch_render_prefixStr ++ "_" ++ env0.clean_name "Cube" ++
              "_" ++ natPad3 1
          else env0.clean_name "Cube" ++ "_" ++ natPad3 1)
         ++ get_file_extension sceneA.image_file_format) :=
  (batch_output_filepath env0 (mkInitState sceneA) 10 "Cube" (by decide) (by decide)
    (by decide) rfl).1

/-! ### C1: state restoration on batch termination -/

theorem finish_inv (s0 : Scene) (s : SysState) (c : Bool) (now : ℚ)
    (hnodup : (s0.objects.map Prod.fst).Nodup) (hinv : Inv s0 s) :
    Inv s0 (finish_batch_render s c now) ∧
      (finish_batch_render s c now).op.is_running = false := by
  obtain ⟨hk, hl, ho, hrun, hnrun⟩ := hinv
  have hobj : (finish_batch_render s c now).scene.objects = s0.objects := by
    rw [finish_objects]
    cases hr : s.op.is_running with
    | true =>
      rw [hrun hr]
      exact restoreVisibility_full s0.objects s.scene.objects (by rw [hk]) hnodup
    | false =>
      rw [(hnrun hr).1]
      exact (hnrun hr).2.1
  have hstop : (finish_batch_render s c now).op.is_running = false := by
    rw [finish_op]
  refine ⟨⟨?_, ?_, ?_, ?_, ?_⟩, hstop⟩
  · rw [hobj]
  · rw [finish_list]
    exact hl
  · rw [finish_op]
    exact ho
  · intro hr
    rw [hstop] at hr
    cases hr
  · intro _
    refine ⟨?_, hobj, ?_⟩
    · rw [finish_op]
    · rw [finish_filepath]
      exact ho

theorem render_next_object_inv (env : Env) (s0 : Scene) (s : SysState) (now : ℚ)
    (hnodup : (s0.objects.map Prod.fst).Nodup)
    (hrun : s.op.is_running = true) (hinv : Inv s0 s) :
    Inv s0 (render_next_object env s now) := by
  suffices H : ∀ (k : Nat) (s : SysState) (now : ℚ),
      s.op.is_running = true → Inv s0 s → Inv s0 (render_next_object_go env now k s) by
    rw [render_next_object]
    exact H _ s now hrun hinv
  intro k
  induction k with
  | zero =>
    intro s now hrun hinv
    exact hinv
  | succ k ih =>
    intro s now hrun hinv
    obtain ⟨hkeys, hl, ho, hvis, hnrun⟩ := hinv
    by_cases h : s.op.current_index < s.scene.batch_render_objects.length
    · rw [render_next_object_go, dif_pos h]
      dsimp only
      by_cases hval : validItem s.scene.objects
          (s.scene.batch_render_objects.get ⟨s.op.current_index, h⟩) = true
      · rw [if_pos hval]
        by_cases hraise : env.render_raises s.op.current_index = true
        · rw [if_pos hraise]
          have hinv2 : Inv s0 { s with
              scene := { s.scene with
                objects := showObject (hideAllObjects s.scene.objects)
                  ((s.scene.batch_render_objects.get ⟨s.op.current_index, h⟩).obj.getD "")
                render_filepath := posixJoin (env.abspath s.scene.batch_render_path)
                  ((if strTrim s.scene.batch_render_prefixStr ≠ "" then
                      strTrim s.scene.batch_render_prefixStr ++ "_" ++
                        env.clean_name ((s.scene.batch_render_objects.get
                          ⟨s.op.current_index, h⟩).obj.getD "") ++ "_" ++
                        natPad3 (s.op.current_index + 1)
                    else env.clean_name ((s.scene.batch_render_objects.get
                        ⟨s.op.current_index, h⟩).obj.getD "") ++ "_" ++
                        natPad3 (s.op.current_index + 1)) ++
                    get_file_extension s.scene.image_file_format)
                batch_render_current_object :=
                  (s.scene.batch_render_objects.get ⟨s.op.current_index, h⟩).obj.getD ""
                batch_render_status := "Rendering: " ++
                  ((s.scene.batch_render_objects.get ⟨s.op.current_index, h⟩).obj.getD "")
                  ++ " (" ++ toString (s.op.current_index + 1) ++ "/" ++
                  toString s.op.total_objects ++ ")" }
              reports := s.reports ++ [⟨"ERROR", "Failed to render " ++
                ((s.scene.batch_render_objects.get
                  ⟨s.op.current_index, h⟩).obj.getD "")⟩]
              op := { s.op with current_index := s.op.current_index + 1 } } := by
            refine ⟨?_, hl, ho, fun _ => hvis hrun, fun hr => ?_⟩
            · show (showObject (hideAllObjects s.scene.objects) _).map Prod.fst = _
              rw [map_fst_showObject, map_fst_hideAllObjects]
              exact hkeys
            · rw [show ({ s.op with current_index := s.op.current_index + 1} :
                  OpState).is_running = s.op.is_running from rfl, hrun] at hr
              cases hr
          by_cases hlt : s.op.current_index + 1 < s.scene.batch_render_objects.length
          · rw [if_pos hlt]
            exact ih _ now hrun hinv2
          · rw [if_neg hlt]
            exact (finish_inv s0 _ false now hnodup hinv2).1
        · rw [if_neg hraise]
          refine ⟨?_, hl, ho, fun _ => hvis hrun, fun hr => ?_⟩
          · show (showObject (hideAllObjects s.scene.objects) _).map Prod.fst = _
            rw [map_fst_showObject, map_fst_hideAllObjects]
            exact hkeys
          · rw [show (({ s with
                scene := { s.scene with
                  objects := showObject (hideAllObjects s.scene.objects)
                    ((s.scene.batch_render_objects.get
                      ⟨s.op.current_index, h⟩).obj.getD "")
                  render_filepath := posixJoin (env.abspath s.scene.batch_render_path)
                    ((if strTrim s.scene.batch_render_prefixStr ≠ "" then
                        strTrim s.scene.batch_render_prefixStr ++ "_" ++
                          env.clean_name ((s.scene.batch_render_objects.get
                            ⟨s.op.current_index, h⟩).obj.getD "") ++ "_" ++
                          natPad3 (s.op.current_index + 1)
                      else env.clean_name ((s.scene.batch_render_objects.get
                          ⟨s.op.current_index, h⟩).obj.getD "") ++ "_" ++
                          natPad3 (s.op.current_index + 1)) ++
                      get_file_extension s.scene.image_file_format)
                  batch_render_current_object :=
                    (s.scene.batch_render_objects.get ⟨s.op.current_index, h⟩).obj.getD ""
                  batch_render_status := "Rendering: " ++
                    ((s.scene.batch_render_objects.get ⟨s.op.current_index, h⟩).obj.getD "")
                    ++ " (" ++ toString (s.op.current_index + 1) ++ "/" ++
                    toString s.op.total_objects ++ ")" } } : SysState).op).is_running
              = s.op.is_running from rfl, hrun] at hr
            cases hr
      · rw [if_neg hval]
        have hinv2 : Inv s0 { s with
            op := { s.op with current_index := s.op.current_index + 1 } } := by
          refine ⟨hkeys, hl, ho, fun _ => hvis hrun, fun hr => ?_⟩
          rw [show ({ s.op with current_index := s.op.current_index + 1} :
              OpState).is_running = s.op.is_running from rfl, hrun] at hr
          cases hr
        by_cases hlt : s.op.current_index + 1 < s.scene.batch_render_objects.length
        · rw [if_pos hlt]
          exact ih _ now hrun hinv2
        · rw [if_neg hlt]
          exact (finish_inv s0 _ false now hnodup hinv2).1
    · rw [render_next_object_go, dif_neg h]
      exact ⟨hkeys, hl, ho, hvis, hnrun⟩

theorem update_progress_inv (s0 : Scene) (s : SysState) (now : ℚ)
    (hinv : Inv s0 s) : Inv s0 (update_progress_info s now) := by
  unfold update_progress_info
  split_ifs with h
  · exact hinv
  · exact hinv

theorem modal_inv (env : Env) (s0 : Scene) (s : SysState) (poll : Bool) (now : ℚ)
    (hnodup : (s0.objects.map Prod.fst).Nodup) (hinv : Inv s0 s) :
    Inv s0 (RENDER_OT_batch_render_modal env s poll now).1 := by
  unfold RENDER_OT_batch_render_modal
  by_cases hc : s.scene.batch_render_cancelled = true
  · rw [if_pos hc]
    exact (finish_inv s0 s true now hnodup hinv).1
  · rw [if_neg hc]
    by_cases hb : (!poll && s.op.is_running) = true
    · rw [if_pos hb]
      have hrun : s.op.is_running = true := by
        revert hb
        cases s.op.is_running <;> simp
      dsimp only
      by_cases hlt : s.op.current_index + 1 < s.scene.batch_render_objects.length
      · rw [if_pos hlt]
        split_ifs with hup
        · exact update_progress_inv s0 _ now
            (render_next_object_inv env s0 _ now hnodup hrun hinv)
        · exact render_next_object_inv env s0 _ now hnodup hrun hinv
      · rw [if_neg hlt]
        exact (finish_inv s0 _ false now hnodup hinv).1
    · rw [if_neg hb]
      dsimp only
      split_ifs with hup
      · exact update_progress_inv s0 s now hinv
      · exact hinv

theorem applyTick_inv (env : Env) (s0 : Scene) (s : SysState) (t : TickIn)
    (hnodup : (s0.objects.map Prod.fst).Nodup) (hinv : Inv s0 s) :
    Inv s0 (applyTick env s t).1 := by
  unfold applyTick RENDER_OT_cancel_batch_execute
  split_ifs with hcp
  · exact modal_inv env s0 _ t.is_rendering t.now hnodup hinv
  · exact modal_inv env s0 s t.is_rendering t.now hnodup hinv

theorem runTicks_inv (env : Env) (s0 : Scene)
    (hnodup : (s0.objects.map Prod.fst).Nodup) :
    ∀ (ticks : List TickIn) (s final : SysState), Inv s0 s →
      runTicks env s ticks = some final →
      Inv s0 final ∧ final.op.is_running = false := by
  intro ticks
  induction ticks with
  | nil =>
    intro s final hinv hrun
    rw [runTicks] at hrun
    by_cases hr : s.op.is_running = false
    · rw [if_pos hr] at hrun
      cases hrun
      exact ⟨hinv, hr⟩
    · rw [if_neg hr] at hrun
      cases hrun
  | cons t rest ih =>
    intro s final hinv hrun
    rw [runTicks] at hrun
    by_cases hr : s.op.is_running = false
    · rw [if_pos hr] at hrun
      cases hrun
      exact ⟨hinv, hr⟩
    · rw [if_neg hr] at hrun
      exact ih _ final (applyTick_inv env s0 s t hnodup hinv) hrun

theorem execute_success_inv (env : Env) (s0 : Scene) (now : ℚ)
    (hnodup : (s0.objects.map Prod.fst).Nodup)
    (hne : s0.batch_render_objects ≠ [])
    (hpath : s0.batch_render_path ≠ "")
    (hmk : env.path_exists (env.abspath s0.batch_render_path) = true ∨
      env.makedirs (env.abspath s0.batch_render_path) = MakedirsOutcome.ok)
    (hw : env.access_w_ok (env.abspath s0.batch_render_path) = true) :
    Inv s0 (RENDER_OT_batch_render_execute env (mkInitState s0) now).1 := by
  unfold RENDER_OT_batch_render_execute
  have h1 : ¬ ((mkInitState s0).scene.batch_render_objects.length = 0) := by
    show ¬ (s0.batch_render_objects.length = 0)
    simpa using hne
  rw [if_neg h1, if_neg (show ¬ ((mkInitState s0).scene.batch_render_path = "")
    from hpath)]
  dsimp only
  have hmkeq : (if env.path_exists (env.abspath s0.batch_render_path) = true
      then MakedirsOutcome.ok
      else env.makedirs (env.abspath s0.batch_render_path)) = MakedirsOutcome.ok := by
    rcases hmk with h | h
    · rw [if_pos h]
    · by_cases hpe : env.path_exists (env.abspath s0.batch_render_path) = true
      · rw [if_pos hpe]
      · rw [if_neg hpe]
        exact h
  rw [show (mkInitState s0).scene.batch_render_path = s0.batch_render_path from rfl,
    hmkeq]
  dsimp only
  rw [if_neg (show ¬ (env.access_w_ok (env.abspath s0.batch_render_path) = false) by
    rw [hw]; simp)]
  have hbase : ∀ s1 : SysState, s1.scene = (mkInitState s0).scene → Inv s0
      { s1 with
        op := { current_index := 0, visibility_states := s1.scene.objects,
                original_filepath := s1.scene.render_filepath, start_time := now,
                total_objects := s1.scene.batch_render_objects.length,
                is_running := true }
        scene := { s1.scene with
          batch_render_cancelled := false, batch_render_progress := 0,
          batch_render_current_object := "",
          batch_render_status := "Starting batch render...",
          batch_render_eta := "Calculating..." } } := by
    intro s1 hs1
    refine ⟨?_, ?_, ?_, ?_, fun hr => ?_⟩
    · rw [hs1]
      exact rfl
    · rw [hs1]
      exact rfl
    · rw [hs1]
      exact rfl
    · intro _
      rw [hs1]
      exact rfl
    · exact Bool.noConfusion hr
  rcases hdf : env.disk_free (env.abspath s0.batch_render_path) with _ | free
  · dsimp only
    exact render_next_object_inv env s0 _ now hnodup rfl (hbase (mkInitState s0) rfl)
  · dsimp only
    split_ifs with hfree
    · exact render_next_object_inv env s0 _ now hnodup rfl
        (hbase { (mkInitState s0) with reports := (mkInitState s0).reports ++
          [⟨"WARNING", "Low disk space detected!"⟩] } rfl)
    · exact render_next_object_inv env s0 _ now hnodup rfl (hbase (mkInitState s0) rfl)

/-- C1: on batch-render termination — by completion or by cancellation — the
scene's render filepath and the `hide_viewport`/`hide_render` flags of every
object recorded at batch start are restored to the values they had when the
batch started: the final scene's objects equal the starting scene's objects
and the render filepath equals the starting one. -/
theorem batch_state_restored_on_termination (env : Env) (s0 : Scene) (now : ℚ)
    (ticks : List TickIn) (final : SysState)
    (hnodup : (s0.objects.map Prod.fst).Nodup)
    (hne : s0.batch_render_objects ≠ [])
    (hpath : s0.batch_render_path ≠ "")
    (hmk : env.path_exists (env.abspath s0.batch_render_path) = true ∨
      env.makedirs (env.abspath s0.batch_render_path) = MakedirsOutcome.ok)
    (hw : env.access_w_ok (env.abspath s0.batch_render_path) = true)
    (hrun : runTicks env ((RENDER_OT_batch_render_execute env (mkInitState s0) now).1)
      ticks = some final) :
    final.scene.render_filepath = s0.render_filepath ∧
    final.scene.objects = s0.objects := by
  have hinv := execute_success_inv env s0 now hnodup hne hpath hmk hw
  obtain ⟨hfin, hstop⟩ := runTicks_inv env s0 hnodup ticks _ final hinv hrun
  obtain ⟨_, _, _, _, hnr⟩ := hfin
  obtain ⟨_, hobj, hfp⟩ := hnr hstop
  exact ⟨hfp, hobj⟩

/-- C1 witness: the concrete run over `sceneA` cancelled at the first timer
event terminates, and both the render filepath and all visibility flags are
back to their start values. -/
theorem batch_state_restored_witness :
    runTicks env0 ((RENDER_OT_batch_render_execute env0 (mkInitState sceneA) 10).1)
      ticksCancel = some finalCancel ∧
    finalCancel.scene.render_filepath = sceneA.render_filepath ∧
    finalCancel.scene.objects = sceneA.objects := by
  have h : runTicks env0
      ((RENDER_OT_batch_render_execute env0 (mkInitState sceneA) 10).1) ticksCancel
      = some finalCancel := by decide
  exact ⟨h, batch_state_restored_on_termination env0 sceneA 10 ticksCancel finalCancel
    (by decide) (by decide) (by decide) (Or.inl rfl) rfl h⟩

/-! ### C2: traversal order of the batch list -/

theorem upTo_succ (P : Nat → Bool) (k : Nat) :
    upTo P (k + 1) = upTo P k ++ (if P k then [k] else []) := by
  by_cases hP : P k <;>
    simp [upTo, List.range_succ, List.filter_append, hP]

theorem validIdxScene_congr (sc tc : Scene)
    (hk : sc.objects.map Prod.fst = tc.objects.map Prod.fst)
    (hl : sc.batch_render_objects = tc.batch_render_objects) :
    ∀ j, validIdxScene sc j = validIdxScene tc j := by
  intro j
  unfold validIdxScene
  rw [hl]
  cases hg : tc.batch_render_objects.get? j with
  | none => rfl
  | some it =>
    show validItem sc.objects it = validItem tc.objects it
    unfold validItem
    cases it.obj with
    | none => rfl
    | some n => exact objExists_congr sc.objects tc.objects hk n

theorem render_next_object_go_InvC2 (env : Env) (s0 : Scene)
    (hfail : ∀ i, env.render_raises i = false) :
    ∀ (k : Nat) (s : SysState) (now : ℚ),
      s0.batch_render_objects.length - s.op.current_index ≤ k →
      s.op.is_running = true →
      s.scene.objects.map Prod.fst = s0.objects.map Prod.fst →
      s.scene.batch_render_objects = s0.batch_render_objects →
      s.scene.batch_render_cancelled = false →
      s.op.current_index < s0.batch_render_objects.length →
      s.renderLog.map RenderEvent.idx = upTo (validIdxScene s0) s.op.current_index →
      InvC2 s0 (render_next_object_go env now k s) := by
  intro k
  induction k with
  | zero =>
    intro s now hk hrun hkeys hlist hcanc hidx hlog
    omega
  | succ k ih =>
    intro s now hk hrun hkeys hlist hcanc hidx hlog
    have h : s.op.current_index < s.scene.batch_render_objects.length := by
      rw [hlist]; exact hidx
    rw [render_next_object_go, dif_pos h]
    dsimp only
    have hQ : ∀ j, validIdxScene s.scene j = validIdxScene s0 j :=
      validIdxScene_congr s.scene s0 hkeys hlist
    by_cases hval : validItem s.scene.objects
        (s.scene.batch_render_objects.get ⟨s.op.current_index, h⟩) = true
    · rw [if_pos hval]
      have hnr : ¬ (env.render_raises s.op.current_index = true) := by
        rw [hfail]; exact Bool.false_ne_true
      rw [if_neg hnr]
      have hP : validIdxScene s0 s.op.current_index = true := by
        rw [← hQ]
        unfold validIdxScene
        rw [List.get?_eq_get h]
        exact hval
      refine ⟨?_, hlist, hcanc, fun _ => ⟨hidx, hP, ?_⟩, fun hr => ?_⟩
      · show (showObject (hideAllObjects s.scene.objects) _).map Prod.fst = _
        rw [map_fst_showObject, map_fst_hideAllObjects]
        exact hkeys
      · show (s.renderLog ++ [_]).map RenderEvent.idx = _
        rw [List.map_append, hlog, upTo_succ, if_pos hP]
        rfl
      · exact Bool.noConfusion (hrun.symm.trans hr)
    · rw [if_neg hval]
      have hPf : validIdxScene s0 s.op.current_index = false := by
        rw [← hQ]
        unfold validIdxScene
        rw [List.get?_eq_get h]
        exact Bool.eq_false_iff.mpr hval
      have hlog2 : s.renderLog.map RenderEvent.idx
          = upTo (validIdxScene s0) (s.op.current_index + 1) := by
        rw [upTo_succ, hPf]
        simp [hlog]
      by_cases hlt : s.op.current_index + 1 < s.scene.batch_render_objects.length
      · rw [if_pos hlt]
        rw [hlist] at hlt
        exact ih _ now (by dsimp only; omega) hrun hkeys hlist hcanc hlt hlog2
      · rw [if_neg hlt]
        rw [hlist] at hlt
        have hn : s.op.current_index + 1 = s0.batch_render_objects.length := by
          omega
        have hstop : (finish_batch_render
            { s with op := { s.op with current_index := s.op.current_index + 1 } }
            false now).op.is_running = false := by
          rw [finish_op]
        refine ⟨?_, ?_, ?_, fun hr => ?_, fun _ => ?_⟩
        · rw [finish_objects, map_fst_restoreVisibility]
          exact hkeys
        · rw [finish_list]
          exact hlist
        · rw [finish_cancelled_flag]
          exact hcanc
        · exact Bool.noConfusion (hstop.symm.trans hr)
        · rw [finish_renderLog]
          show s.renderLog.map RenderEvent.idx = _
          rw [hlog2, hn]

theorem render_next_object_InvC2 (env : Env) (s0 : Scene)
    (hfail : ∀ i, env.render_raises i = false) (s : SysState) (now : ℚ)
    (hrun : s.op.is_running = true)
    (hkeys : s.scene.objects.map Prod.fst = s0.objects.map Prod.fst)
    (hlist : s.scene.batch_render_objects = s0.batch_render_objects)
    (hcanc : s.scene.batch_render_cancelled = false)
    (hidx : s.op.current_index < s0.batch_render_objects.length)
    (hlog : s.renderLog.map RenderEvent.idx =
      upTo (validIdxScene s0) s.op.current_index) :
    InvC2 s0 (render_next_object env s now) := by
  unfold render_next_object
  exact render_next_object_go_InvC2 env s0 hfail _ s now (by rw [hlist]) hrun hkeys
    hlist hcanc hidx hlog

theorem update_progress_InvC2 (s0 : Scene) (s : SysState) (now : ℚ)
    (hinv : InvC2 s0 s) : InvC2 s0 (update_progress_info s now) := by
  unfold update_progress_info
  split_ifs with h
  · exact hinv
  · exact hinv

theorem modal_InvC2 (env : Env) (s0 : Scene) (s : SysState) (poll : Bool) (now : ℚ)
    (hfail : ∀ i, env.render_raises i = false) (hinv : InvC2 s0 s) :
    InvC2 s0 (RENDER_OT_batch_render_modal env s poll now).1 := by
  obtain ⟨hkeys, hlist, hcanc, hruncl, hnruncl⟩ := hinv
  unfold RENDER_OT_batch_render_modal
  rw [if_neg (show ¬ (s.scene.batch_render_cancelled = true) by
    rw [hcanc]; exact Bool.false_ne_true)]
  by_cases hb : (!poll && s.op.is_running) = true
  · rw [if_pos hb]
    have hrun : s.op.is_running = true := by
      revert hb
      cases s.op.is_running <;> simp
    obtain ⟨hilt, hP, hlog⟩ := hruncl hrun
    dsimp only
    by_cases hlt : s.op.current_index + 1 < s.scene.batch_render_objects.length
    · rw [if_pos hlt]
      rw [hlist] at hlt
      have hstep := render_next_object_InvC2 env s0 hfail
        { s with
          scene := { s.scene with batch_render_progress :=
            (((s.op.current_index : ℚ) + 1) / (s.op.total_objects : ℚ)) * 100 }
          op := { s.op with current_index := s.op.current_index + 1 } } now
        hrun hkeys hlist hcanc hlt hlog
      split_ifs with hup
      · exact update_progress_InvC2 s0 _ now hstep
      · exact hstep
    · rw [if_neg hlt]
      rw [hlist] at hlt
      have hn : s.op.current_index + 1 = s0.batch_render_objects.length := by
        omega
      have hstop : (finish_batch_render
          { s with
            scene := { s.scene with batch_render_progress :=
              (((s.op.current_index : ℚ) + 1) / (s.op.total_objects : ℚ)) * 100 }
            op := { s.op with current_index := s.op.current_index + 1 } }
          false now).op.is_running = false := by
        rw [finish_op]
      refine ⟨?_, ?_, ?_, fun hr => ?_, fun _ => ?_⟩
      · rw [finish_objects, map_fst_restoreVisibility]
        exact hkeys
      · rw [finish_list]
        exact hlist
      · rw [finish_cancelled_flag]
        exact hcanc
      · exact Bool.noConfusion (hstop.symm.trans hr)
      · rw [finish_renderLog]
        show s.renderLog.map RenderEvent.idx = _
        rw [hlog, hn]
  · rw [if_neg hb]
    dsimp only
    split_ifs with hup
    · exact update_progress_InvC2 s0 s now ⟨hkeys, hlist, hcanc, hruncl, hnruncl⟩
    · exact ⟨hkeys, hlist, hcanc, hruncl, hnruncl⟩

theorem applyTick_InvC2 (env : Env) (s0 : Scene) (s : SysState) (t : TickIn)
    (hfail : ∀ i, env.render_raises i = false) (hcp : t.cancelPressed = false)
    (hinv : InvC2 s0 s) : InvC2 s0 (applyTick env s t).1 := by
  unfold applyTick
  rw [if_neg (show ¬ (t.cancelPressed = true) by
    rw [hcp]; exact Bool.false_ne_true)]
  exact modal_InvC2 env s0 s t.is_rendering t.now hfail hinv

theorem runTicks_InvC2 (env : Env) (s0 : Scene)
    (hfail : ∀ i, env.render_raises i = false) :
    ∀ (ticks : List TickIn) (s final : SysState),
      (∀ t ∈ ticks, t.cancelPressed = false) → InvC2 s0 s →
      runTicks env s ticks = some final →
      InvC2 s0 final ∧ final.op.is_running = false := by
  intro ticks
  induction ticks with
  | nil =>
    intro s final hnc hinv hrun
    rw [runTicks] at hrun
    by_cases hr : s.op.is_running = false
    · rw [if_pos hr] at hrun
      cases hrun
      exact ⟨hinv, hr⟩
    · rw [if_neg hr] at hrun
      cases hrun
  | cons t rest ih =>
    intro s final hnc hinv hrun
    rw [runTicks] at hrun
    by_cases hr : s.op.is_running = false
    · rw [if_pos hr] at hrun
      cases hrun
      exact ⟨hinv, hr⟩
    · rw [if_neg hr] at hrun
      exact ih _ final (fun u hu => hnc u (by simp [hu]))
        (applyTick_InvC2 env s0 s t hfail (hnc t (by simp)) hinv) hrun

theorem execute_InvC2 (env : Env) (s0 : Scene) (now : ℚ)
    (hfail : ∀ i, env.render_raises i = false)
    (hne : s0.batch_render_objects ≠ [])
    (hpath : s0.batch_render_path ≠ "")
    (hmk : env.path_exists (env.abspath s0.batch_render_path) = true ∨
      env.makedirs (env.abspath s0.batch_render_path) = MakedirsOutcome.ok)
    (hw : env.access_w_ok (env.abspath s0.batch_render_path) = true) :
    InvC2 s0 (RENDER_OT_batch_render_execute env (mkInitState s0) now).1 := by
  unfold RENDER_OT_batch_render_execute
  have h1 : ¬ ((mkInitState s0).scene.batch_render_objects.length = 0) := by
    show ¬ (s0.batch_render_objects.length = 0)
    simpa using hne
  rw [if_neg h1, if_neg (show ¬ ((mkInitState s0).scene.batch_render_path = "")
    from hpath)]
  dsimp only
  have hmkeq : (if env.path_exists (env.abspath s0.batch_render_path) = true
      then MakedirsOutcome.ok
      else env.makedirs (env.abspath s0.batch_render_path)) = MakedirsOutcome.ok := by
    rcases hmk with h | h
    · rw [if_pos h]
    · by_cases hpe : env.path_exists (env.abspath s0.batch_render_path) = true
      · rw [if_pos hpe]
      · rw [if_neg hpe]
        exact h
  rw [show (mkInitState s0).scene.batch_render_path = s0.batch_render_path from rfl,
    hmkeq]
  dsimp only
  rw [if_neg (show ¬ (env.access_w_ok (env.abspath s0.batch_render_path) = false) by
    rw [hw]; simp)]
  have hidx0 : 0 < s0.batch_render_objects.length := by
    cases hcl : s0.batch_render_objects with
    | nil => exact absurd hcl hne
    | cons a l => simp [hcl]
  rcases hdf : env.disk_free (env.abspath s0.batch_render_path) with _ | free
  · dsimp only
    exact render_next_object_InvC2 env s0 hfail _ now rfl rfl rfl rfl hidx0 rfl
  · dsimp only
    split_ifs with hfree
    · exact render_next_object_InvC2 env s0 hfail _ now rfl rfl rfl rfl hidx0 rfl
    · exact render_next_object_InvC2 env s0 hfail _ now rfl rfl rfl rfl hidx0 rfl

/-- C2: an uncancelled batch render whose host render calls succeed traverses
the batch list in index order: the sequence of list indices for which a render
was started is exactly the increasing sequence of valid indices of the list —
each valid entry started exactly once, never revisited. -/
theorem batch_traverses_in_order (env : Env) (s0 : Scene) (now : ℚ)
    (ticks : List TickIn) (log : List RenderEvent)
    (hfail : ∀ i, env.render_raises i = false)
    (hnc : ∀ t ∈ ticks, t.cancelPressed = false)
    (hne : s0.batch_render_objects ≠ [])
    (hpath : s0.batch_render_path ≠ "")
    (hmk : env.path_exists (env.abspath s0.batch_render_path) = true ∨
      env.makedirs (env.abspath s0.batch_render_path) = MakedirsOutcome.ok)
    (hw : env.access_w_ok (env.abspath s0.batch_render_path) = true)
    (hrun : (runTicks env ((RENDER_OT_batch_render_execute env (mkInitState s0) now).1)
      ticks).map SysState.renderLog = some log) :
    log.map RenderEvent.idx =
      (List.range s0.batch_render_objects.length).filter (validIdxScene s0) := by
  obtain ⟨final, hfin, hlog⟩ := Option.map_eq_some'.mp hrun
  obtain ⟨hc2, hstop⟩ := runTicks_InvC2 env s0 hfail ticks _ final hnc
    (execute_InvC2 env s0 now hfail hne hpath hmk hw) hfin
  rw [← hlog]
  exact hc2.2.2.2.2 hstop

/-- C2 witness: the concrete uncancelled run over `sceneA` starts exactly the
renders of entries 0 and 1, in order. -/
theorem batch_traverses_witness :
    (runTicks env0 ((RENDER_OT_batch_render_execute env0 (mkInitState sceneA) 10).1)
      ticksRun).map SysState.renderLog = some [eventCube, eventLamp] ∧
    [eventCube, eventLamp].map RenderEvent.idx =
      (List.range sceneA.batch_render_objects.length).filter (validIdxScene sceneA) := by
  have h : (runTicks env0
      ((RENDER_OT_batch_render_execute env0 (mkInitState sceneA) 10).1)
      ticksRun).map SysState.renderLog = some [eventCube, eventLamp] := by decide
  exact ⟨h, batch_traverses_in_order env0 sceneA 10 ticksRun [eventCube, eventLamp]
    (fun _ => rfl) (by decide) (by decide) (by decide) (Or.inl rfl) rfl h⟩

/-! ### C8: progress tracking -/

theorem countDone_cons (t : TickIn) (rest : List TickIn) :
    countDone (t :: rest) = (if t.is_rendering = true then 0 else 1) + countDone rest := by
  unfold countDone
  cases h : t.is_rendering <;> simp [List.filter_cons, h] <;> omega

theorem validItem_of_validIdxScene (sc : Scene) (j : Nat)
    (h : j < sc.batch_render_objects.length) (hv : validIdxScene sc j = true) :
    validItem sc.objects (sc.batch_render_objects.get ⟨j, h⟩) = true := by
  unfold validIdxScene at hv
  rw [List.get?_eq_get h] at hv
  exact hv

theorem update_progress_InvC8 (s0 : Scene) (X : SysState) (now : ℚ)
    (hrunX : X.op.is_running = true)
    (hkeysX : X.scene.objects.map Prod.fst = s0.objects.map Prod.fst)
    (hlistX : X.scene.batch_render_objects = s0.batch_render_objects)
    (hcancX : X.scene.batch_render_cancelled = false)
    (htotX : X.op.total_objects = s0.batch_render_objects.length)
    (hidxX : X.op.current_index < s0.batch_render_objects.length)
    (hprogX : X.scene.batch_render_progress =
      ((X.op.current_index : ℚ) / (s0.batch_render_objects.length : ℚ)) * 100) :
    InvC8 s0 (update_progress_info X now) := by
  unfold update_progress_info
  split_ifs with hcond
  · refine ⟨hkeysX, hlistX, hcancX, htotX, fun _ => ⟨hidxX, ?_⟩,
      fun hr => Bool.noConfusion (hrunX.symm.trans hr)⟩
    show ((X.op.current_index : ℚ) / (X.op.total_objects : ℚ)) * 100 = _
    rw [htotX]
  · exact ⟨hkeysX, hlistX, hcancX, htotX, fun _ => ⟨hidxX, hprogX⟩,
      fun hr => Bool.noConfusion (hrunX.symm.trans hr)⟩

theorem modal_step_InvC8 (env : Env) (s0 : Scene) (s : SysState) (poll : Bool)
    (now : ℚ)
    (hfail : ∀ i, env.render_raises i = false)
    (hall : ∀ j, j < s0.batch_render_objects.length → validIdxScene s0 j = true)
    (hrun : s.op.is_running = true) (hinv : InvC8 s0 s) :
    InvC8 s0 (RENDER_OT_batch_render_modal env s poll now).1 ∧
    ((RENDER_OT_batch_render_modal env s poll now).1.op.is_running = true →
      (RENDER_OT_batch_render_modal env s poll now).1.op.current_index =
        s.op.current_index + (if poll = true then 0 else 1)) := by
  obtain ⟨hkeys, hlist, hcanc, htot, hruncl, hnruncl⟩ := hinv
  obtain ⟨hilt, hprog⟩ := hruncl hrun
  unfold RENDER_OT_batch_render_modal
  rw [if_neg (show ¬ (s.scene.batch_render_cancelled = true) by
    rw [hcanc]; exact Bool.false_ne_true)]
  cases hpoll : poll with
  | true =>
    rw [show (!true && s.op.is_running) = false by simp]
    rw [if_neg (show ¬ (false = true) by simp)]
    rw [if_pos hrun]
    constructor
    · exact update_progress_InvC8 s0 s now hrun hkeys hlist hcanc htot hilt hprog
    · intro _
      rw [update_progress_op]
      simp
  | false =>
    rw [if_pos (show (!false && s.op.is_running) = true by rw [hrun]; rfl)]
    dsimp only
    by_cases hlt : s.op.current_index + 1 < s.scene.batch_render_objects.length
    · rw [if_pos hlt]
      have hlt0 : s.op.current_index + 1 < s0.batch_render_objects.length := by
        rw [hlist] at hlt
        exact hlt
      have hvs : validIdxScene s.scene (s.op.current_index + 1) = true := by
        rw [validIdxScene_congr s.scene s0 hkeys hlist]
        exact hall _ hlt0
      have hval2 : validItem s.scene.objects
          (s.scene.batch_render_objects.get ⟨s.op.current_index + 1, hlt⟩) = true :=
        validItem_of_validIdxScene s.scene _ hlt hvs
      rw [render_next_object_success env
        { s with
          scene := { s.scene with batch_render_progress :=
            (((s.op.current_index : ℚ) + 1) / (s.op.total_objects : ℚ)) * 100 }
          op := { s.op with current_index := s.op.current_index + 1 } } now hlt
        hval2 (hfail _)]
      dsimp only
      rw [if_pos (show _ = true from hrun)]
      constructor
      · refine update_progress_InvC8 s0 _ now hrun ?_ hlist hcanc htot hlt0 ?_
        · show (showObject (hideAllObjects s.scene.objects) _).map Prod.fst = _
          rw [map_fst_showObject, map_fst_hideAllObjects]
          exact hkeys
        · show (((s.op.current_index : ℚ) + 1) / (s.op.total_objects : ℚ)) * 100 =
            (((s.op.current_index + 1 : Nat) : ℚ) /
              (s0.batch_render_objects.length : ℚ)) * 100
          rw [htot]
          push_cast
          ring
      · intro _
        rw [update_progress_op]
        simp
    · rw [if_neg hlt]
      have hstop : (finish_batch_render
          { s with
            scene := { s.scene with batch_render_progress :=
              (((s.op.current_index : ℚ) + 1) / (s.op.total_objects : ℚ)) * 100 }
            op := { s.op with current_index := s.op.current_index + 1 } }
          false now).op.is_running = false := by
        rw [finish_op]
      constructor
      · refine ⟨?_, ?_, ?_, ?_, fun hr => ?_, fun _ => ?_⟩
        · rw [finish_objects, map_fst_restoreVisibility]
          exact hkeys
        · rw [finish_list]
          exact hlist
        · rw [finish_cancelled_flag]
          exact hcanc
        · rw [finish_op]
          exact htot
        · exact Bool.noConfusion (hstop.symm.trans hr)
        · exact finish_progress_done _ _
      · intro hr
        exact Bool.noConfusion (hstop.symm.trans hr)

theorem applyTick_InvC8 (env : Env) (s0 : Scene) (s : SysState) (t : TickIn)
    (hfail : ∀ i, env.render_raises i = false)
    (hall : ∀ j, j < s0.batch_render_objects.length → validIdxScene s0 j = true)
    (hcp : t.cancelPressed = false) (hrun : s.op.is_running = true)
    (hinv : InvC8 s0 s) : InvC8 s0 (applyTick env s t).1 := by
  unfold applyTick
  rw [if_neg (show ¬ (t.cancelPressed = true) by
    rw [hcp]; exact Bool.false_ne_true)]
  exact (modal_step_InvC8 env s0 s t.is_rendering t.now hfail hall hrun hinv).1

theorem applyTick_step_count (env : Env) (s0 : Scene) (s : SysState) (t : TickIn)
    (hfail : ∀ i, env.render_raises i = false)
    (hall : ∀ j, j < s0.batch_render_objects.length → validIdxScene s0 j = true)
    (hcp : t.cancelPressed = false) (hrun : s.op.is_running = true)
    (hinv : InvC8 s0 s) :
    (applyTick env s t).1.op.is_running = true →
      (applyTick env s t).1.op.current_index =
        s.op.current_index + (if t.is_rendering = true then 0 else 1) := by
  unfold applyTick
  rw [if_neg (show ¬ (t.cancelPressed = true) by
    rw [hcp]; exact Bool.false_ne_true)]
  exact (modal_step_InvC8 env s0 s t.is_rendering t.now hfail hall hrun hinv).2

theorem runPartial_InvC8 (env : Env) (s0 : Scene)
    (hfail : ∀ i, env.render_raises i = false)
    (hall : ∀ j, j < s0.batch_render_objects.length → validIdxScene s0 j = true) :
    ∀ (pre : List TickIn) (s : SysState), (∀ t ∈ pre, t.cancelPressed = false) →
      InvC8 s0 s →
      InvC8 s0 (runPartial env s pre) ∧
      ((runPartial env s pre).op.is_running = true →
        (runPartial env s pre).op.current_index =
          s.op.current_index + countDone pre) := by
  intro pre
  induction pre with
  | nil =>
    intro s hnc hinv
    rw [runPartial]
    by_cases hr : s.op.is_running = false
    · rw [if_pos hr]
      exact ⟨hinv, fun _ => by simp [countDone]⟩
    · rw [if_neg hr]
      exact ⟨hinv, fun _ => by simp [countDone]⟩
  | cons t rest ih =>
    intro s hnc hinv
    rw [runPartial]
    by_cases hr : s.op.is_running = false
    · rw [if_pos hr]
      exact ⟨hinv, fun htrue => Bool.noConfusion (hr.symm.trans htrue)⟩
    · rw [if_neg hr]
      have hrun : s.op.is_running = true := by
        revert hr
        cases s.op.is_running <;> simp
      have hinv2 := applyTick_InvC8 env s0 s t hfail hall (hnc t (by simp)) hrun hinv
      obtain ⟨hinvF, hidxF⟩ := ih _ (fun u hu => hnc u (by simp [hu])) hinv2
      refine ⟨hinvF, fun htrue => ?_⟩
      by_cases hr2 : (applyTick env s t).1.op.is_running = false
      · have hEq : runPartial env (applyTick env s t).1 rest = (applyTick env s t).1 := by
          cases rest with
          | nil => rw [runPartial, if_pos hr2]
          | cons u us => rw [runPartial, if_pos hr2]
        rw [hEq] at htrue
        exact Bool.noConfusion (hr2.symm.trans htrue)
      · have hrun2 : (applyTick env s t).1.op.is_running = true := by
          revert hr2
          cases (applyTick env s t).1.op.is_running <;> simp
        have hc := applyTick_step_count env s0 s t hfail hall (hnc t (by simp)) hrun
          hinv hrun2
        rw [hidxF htrue, hc, countDone_cons]
        cases t.is_rendering <;> simp <;> omega

theorem runTicks_InvC8 (env : Env) (s0 : Scene)
    (hfail : ∀ i, env.render_raises i = false)
    (hall : ∀ j, j < s0.batch_render_objects.length → validIdxScene s0 j = true) :
    ∀ (ticks : List TickIn) (s final : SysState),
      (∀ t ∈ ticks, t.cancelPressed = false) → InvC8 s0 s →
      runTicks env s ticks = some final →
      InvC8 s0 final ∧ final.op.is_running = false := by
  intro ticks
  induction ticks with
  | nil =>
    intro s final hnc hinv hrun
    rw [runTicks] at hrun
    by_cases hr : s.op.is_running = false
    · rw [if_pos hr] at hrun
      cases hrun
      exact ⟨hinv, hr⟩
    · rw [if_neg hr] at hrun
      cases hrun
  | cons t rest ih =>
    intro s final hnc hinv hrun
    rw [runTicks] at hrun
    by_cases hr : s.op.is_running = false
    · rw [if_pos hr] at hrun
      cases hrun
      exact ⟨hinv, hr⟩
    · rw [if_neg hr] at hrun
      have hsrun : s.op.is_running = true := by
        revert hr
        cases s.op.is_running <;> simp
      exact ih _ final (fun u hu => hnc u (by simp [hu]))
        (applyTick_InvC8 env s0 s t hfail hall (hnc t (by simp)) hsrun hinv) hrun

theorem execute_InvC8 (env : Env) (s0 : Scene) (now : ℚ)
    (hfail : ∀ i, env.render_raises i = false)
    (hall : ∀ j, j < s0.batch_render_objects.length → validIdxScene s0 j = true)
    (hne : s0.batch_render_objects ≠ [])
    (hpath : s0.batch_render_path ≠ "")
    (hmk : env.path_exists (env.abspath s0.batch_render_path) = true ∨
      env.makedirs (env.abspath s0.batch_render_path) = MakedirsOutcome.ok)
    (hw : env.access_w_ok (env.abspath s0.batch_render_path) = true) :
    InvC8 s0 (RENDER_OT_batch_render_execute env (mkInitState s0) now).1 ∧
    (RENDER_OT_batch_render_execute env (mkInitState s0) now).1.op.is_running = true ∧
    (RENDER_OT_batch_render_execute env (mkInitState s0) now).1.op.current_index = 0 ∧
    (RENDER_OT_batch_render_execute env (mkInitState s0) now).1.scene.batch_render_progress
      = 0 := by
  have hidx0 : 0 < s0.batch_render_objects.length := by
    cases hcl : s0.batch_render_objects with
    | nil => exact absurd hcl hne
    | cons a l => simp [hcl]
  unfold RENDER_OT_batch_render_execute
  have h1 : ¬ ((mkInitState s0).scene.batch_render_objects.length = 0) := by
    show ¬ (s0.batch_render_objects.length = 0)
    simpa using hne
  rw [if_neg h1, if_neg (show ¬ ((mkInitState s0).scene.batch_render_path = "")
    from hpath)]
  dsimp only
  have hmkeq : (if env.path_exists (env.abspath s0.batch_render_path) = true
      then MakedirsOutcome.ok
      else env.makedirs (env.abspath s0.batch_render_path)) = MakedirsOutcome.ok := by
    rcases hmk with h | h
    · rw [if_pos h]
    · by_cases hpe : env.path_exists (env.abspath s0.batch_render_path) = true
      · rw [if_pos hpe]
      · rw [if_neg hpe]
        exact h
  rw [show (mkInitState s0).scene.batch_render_path = s0.batch_render_path from rfl,
    hmkeq]
  dsimp only
  rw [if_neg (show ¬ (env.access_w_ok (env.abspath s0.batch_render_path) = false) by
    rw [hw]; simp)]
  have hmain : ∀ sB : SysState, sB.scene = s0 →
      (let s1 : SysState := { sB with
          op := { current_index := 0, visibility_states := sB.scene.objects,
                  original_filepath := sB.scene.render_filepath, start_time := now,
                  total_objects := sB.scene.batch_render_objects.length,
                  is_running := true }
          scene := { sB.scene with
            batch_render_cancelled := false, batch_render_progress := 0,
            batch_render_current_object := "",
            batch_render_status := "Starting batch render...",
            batch_render_eta := "Calculating..." } }
       InvC8 s0 (render_next_object env s1 now) ∧
       (render_next_object env s1 now).op.is_running = true ∧
       (render_next_object env s1 now).op.current_index = 0 ∧
       (render_next_object env s1 now).scene.batch_render_progress = 0) := by
    intro sB hsB
    dsimp only
    have h : (0 : Nat) < sB.scene.batch_render_objects.length := by
      rw [hsB]
      exact hidx0
    have hvs : validIdxScene sB.scene 0 = true := by
      rw [hsB]
      exact hall 0 hidx0
    have hval : validItem sB.scene.objects
        (sB.scene.batch_render_objects.get ⟨0, h⟩) = true :=
      validItem_of_validIdxScene sB.scene 0 h hvs
    rw [render_next_object_success env _ now h hval (hfail _)]
    dsimp only
    refine ⟨⟨?_, ?_, rfl, ?_, fun _ => ⟨?_, ?_⟩, fun hr => Bool.noConfusion hr⟩,
      rfl, rfl, rfl⟩
    · show (showObject (hideAllObjects sB.scene.objects) _).map Prod.fst = _
      rw [map_fst_showObject, map_fst_hideAllObjects, hsB]
    · show sB.scene.batch_render_objects = _
      rw [hsB]
    · show sB.scene.batch_render_objects.length = _
      rw [hsB]
    · show (0 : Nat) < s0.batch_render_objects.length
      exact hidx0
    · show (0 : ℚ) = (((0 : Nat) : ℚ) / (s0.batch_render_objects.length : ℚ)) * 100
      simp
  rcases hdf : env.disk_free (env.abspath s0.batch_render_path) with _ | free
  · dsimp only
    exact hmain (mkInitState s0) rfl
  · dsimp only
    split_ifs with hfree
    · exact hmain { (mkInitState s0) with reports := (mkInitState s0).reports ++
        [⟨"WARNING", "Low disk space detected!"⟩] } rfl
    · exact hmain (mkInitState s0) rfl

/-- C8: in a batch run of `n` valid objects that is not cancelled and whose
host render calls succeed, the reported progress is 0 at batch start, equals
`(k / n) * 100` whenever `k` render jobs have completed (one completion per
timer tick whose poll reports the job done), and is 100 once the batch
finishes. -/
theorem progress_tracking (env : Env) (s0 : Scene) (now : ℚ) (ticks : List TickIn)
    (hfail : ∀ i, env.render_raises i = false)
    (hall : ∀ j, j < s0.batch_render_objects.length → validIdxScene s0 j = true)
    (hnc : ∀ t ∈ ticks, t.cancelPressed = false)
    (hne : s0.batch_render_objects ≠ [])
    (hpath : s0.batch_render_path ≠ "")
    (hmk : env.path_exists (env.abspath s0.batch_render_path) = true ∨
      env.makedirs (env.abspath s0.batch_render_path) = MakedirsOutcome.ok)
    (hw : env.access_w_ok (env.abspath s0.batch_render_path) = true) :
    (RENDER_OT_batch_render_execute env (mkInitState s0) now).1.scene.batch_render_progress
      = 0 ∧
    (∀ pre rest, ticks = pre ++ rest →
      (runPartial env ((RENDER_OT_batch_render_execute env (mkInitState s0) now).1)
        pre).op.is_running = true →
      (runPartial env ((RENDER_OT_batch_render_execute env (mkInitState s0) now).1)
        pre).scene.batch_render_progress =
        ((countDone pre : ℚ) / (s0.batch_render_objects.length : ℚ)) * 100) ∧
    (∀ p : ℚ, (runTicks env ((RENDER_OT_batch_render_execute env (mkInitState s0) now).1)
        ticks).map (fun f => f.scene.batch_render_progress) = some p → p = 100) := by
  obtain ⟨hinv0, hrun0, hidx0, hprog0⟩ :=
    execute_InvC8 env s0 now hfail hall hne hpath hmk hw
  refine ⟨hprog0, ?_, ?_⟩
  · intro pre rest hsplit hrunning
    have hncp : ∀ t ∈ pre, t.cancelPressed = false := by
      intro u hu
      exact hnc u (by rw [hsplit]; exact List.mem_append_left rest hu)
    obtain ⟨hinvF, hidxF⟩ := runPartial_InvC8 env s0 hfail hall pre _ hncp hinv0
    obtain ⟨_, hprogF⟩ := hinvF.2.2.2.2.1 hrunning
    rw [hprogF, hidxF hrunning, hidx0]
    simp
  · intro p hp
    obtain ⟨final, hfin, hproj⟩ := Option.map_eq_some'.mp hp
    obtain ⟨hinvF, hstop⟩ := runTicks_InvC8 env s0 hfail hall ticks _ final hnc
      hinv0 hfin
    rw [← hproj]
    exact hinvF.2.2.2.2.2 hstop

/-- C8 witness: in the concrete run over `sceneA` (two valid objects), the
progress is 0 after start, 50 after the first completion, and 100 when the
batch has finished. -/
theorem progress_tracking_witness :
    (RENDER_OT_batch_render_execute env0 (mkInitState sceneA) 10).1.scene.batch_render_progress
      = 0 ∧
    (runPartial env0 ((RENDER_OT_batch_render_execute env0 (mkInitState sceneA) 10).1)
      [⟨false, false, 11⟩]).scene.batch_render_progress =
      ((countDone [⟨false, false, 11⟩] : ℚ) /
        (sceneA.batch_render_objects.length : ℚ)) * 100 ∧
    (∀ p : ℚ, (runTicks env0
        ((RENDER_OT_batch_render_execute env0 (mkInitState sceneA) 10).1)
        ticksRun8).map (fun f => f.scene.batch_render_progress) = some p → p = 100) := by
  obtain ⟨h0, hmid, hfin⟩ := progress_tracking env0 sceneA 10 ticksRun8
    (fun _ => rfl) (by decide) (by decide) (by decide) (by decide) (Or.inl rfl) rfl
  refine ⟨h0, ?_, hfin⟩
  exact hmid [⟨false, false, 11⟩] [⟨false, true, 12⟩, ⟨false, false, 13⟩] rfl (by decide)

/-- C10 witness: the amended statement, instantiated at a two-entry list with
selection index 1; removal leaves index 0 for the remaining one-entry list. -/
theorem remove_from_batch_index_witness :
    (0 ≤ (mkInitState { sceneA with batch_render_index := 1 }).scene.batch_render_index ∧
      (mkInitState { sceneA with batch_render_index := 1 }).scene.batch_render_index <
        ((mkInitState { sceneA with batch_render_index := 1 }).scene.batch_render_objects.length : Int)) ∧
    ((RENDER_OT_remove_from_batch_execute
        (mkInitState { sceneA with batch_render_index := 1 })).1.scene.batch_render_objects ≠ [] →
      0 ≤ (RENDER_OT_remove_from_batch_execute
        (mkInitState { sceneA with batch_render_index := 1 })).1.scene.batch_render_index ∧
      (RENDER_OT_remove_from_batch_execute
        (mkInitState { sceneA with batch_render_index := 1 })).1.scene.batch_render_index <
        ((RENDER_OT_remove_from_batch_execute
          (mkInitState { sceneA with batch_render_index := 1 })).1.scene.batch_render_objects.length : Int)) :=
  ⟨⟨by decide, by decide⟩,
   (remove_from_batch_index_valid_or_neg_one
      (mkInitState { sceneA with batch_render_index := 1 }) (by decide) (by decide)).1⟩

end BatchRender
